import Mathlib

/-!
# Texture router (`router/texture_router.go`)

A shallow embedding of the three authenticated handlers of the texture router,
`SetTexture`, `UploadTexture` and `DeleteTexture`, together with the Mojang skin
resolution that `SetTexture` performs before it calls the texture service.

A handler is a function of its collaborators (`Env`) and of the inbound request
(`Context`).  It returns a `Result`: the URLs it handed to `util.GetObject`, in
order, the calls it made on the texture service, and the response it wrote.

Go strings are byte strings, so they are `List UInt8` here: `len` is
`List.length` and `s[7:]` is `List.drop 7`.
-/

namespace Router

/-! ## Values -/

/-- A Go `string`: a sequence of bytes. -/
abbrev GoString := List UInt8

/-- The bytes of an ASCII literal of the source. -/
def ascii (s : String) : GoString := s.toList.map (fun c => UInt8.ofNat c.toNat)

/-- A `uuid.UUID`: sixteen bytes, read as one 128-bit number. -/
abbrev UUID := Fin (2 ^ 128)

/-- The constant `uuid.Nil`, all sixteen bytes zero. -/
def uuid.Nil : UUID := ⟨0, by decide⟩

/-- A Go `interface{}` as `encoding/json` produces it: `nil`, `bool`, `float64`
(kept as its bit pattern, never inspected), `string`, `[]interface{}` and
`map[string]interface{}` (an association list, read by `GoMap.get`). -/
inductive GoVal where
  | null
  | bool (b : Bool)
  | float (bits : Nat)
  | str (s : GoString)
  | arr (xs : List GoVal)
  | obj (kvs : List (GoString × GoVal))

/-- A Go `map[string]interface{}`; the nil map is the empty list. -/
abbrev GoMap := List (GoString × GoVal)

/-- The index expression `m[key]`: the value stored under `key`, and the nil
interface when the key is absent. -/
def GoMap.get : GoMap → GoString → GoVal
  | [], _ => GoVal.null
  | (k, v) :: rest, key => if k = key then v else GoMap.get rest key

/-- The comparison `v == "lit"` of an interface value with a string constant: true
exactly when the dynamic type is `string` and the bytes are equal. -/
def GoVal.eqString : GoVal → GoString → Bool
  | GoVal.str s, lit => decide (s = lit)
  | _, _ => false

/-- The fields of `util.YggdrasilError` that the router reads or writes. -/
structure YggdrasilError where
  Status : Int
  ErrorCode : GoString
  ErrorMessage : GoString
  deriving DecidableEq

/-- A non-nil Go `error`: a `*util.YggdrasilError`, an error wrapping another one
(its `Unwrap` returns `inner`), or any other error, known by its text. -/
inductive GoError where
  | ygg (e : YggdrasilError)
  | wrap (msg : GoString) (inner : GoError)
  | other (msg : GoString)
  deriving DecidableEq

/-- The call `errors.As(err, &yggErr)` with `yggErr : *util.YggdrasilError`: the
first error of that type along the `Unwrap` chain. -/
def errorsAs : GoError → Option YggdrasilError
  | GoError.ygg e => some e
  | GoError.wrap _ inner => errorsAs inner
  | GoError.other _ => none

/-- The error `fmt.Errorf(msg)` of a format string without verbs. -/
def fmtErrorf (msg : GoString) : GoError := GoError.other msg

/-! ## HTTP status codes (`net/http`) -/

def StatusNoContent : Nat := 204
def StatusBadRequest : Nat := 400
def StatusUnauthorized : Nat := 401
def StatusForbidden : Nat := 403
def StatusInternalServerError : Nat := 500

/-! ## Requests, collaborators and results -/

/-- The struct `SetTextureRequest`. -/
structure SetTextureRequest where
  Url : GoString
  Model : GoString
  ForceMojangSkin : Int
  Username : GoString
  deriving DecidableEq

/-- A `*multipart.FileHeader`: its `Size`, and what `Open()` returns (the reader,
known by the bytes it yields). -/
structure FileHeader where
  Size : Int
  Open : Except GoError GoString

/-- The part of `*gin.Context` the handlers read.  `GetHeader`, `Param` and
`PostForm` return the empty string for what is absent.  `ShouldBindJSON` takes the
request struct as initialised by the handler and returns it bound to the body, or
the text of the binding error.  `FormFile` returns the file or the error text. -/
structure Context where
  GetHeader : GoString → GoString
  Param : GoString → GoString
  PostForm : GoString → GoString
  FormFile : GoString → Except GoString FileHeader
  ShouldBindJSON : SetTextureRequest → Except GoString SetTextureRequest

/-- The interface `service.TextureService`, as far as the three handlers use it:
each method returns `none` for a nil error. -/
structure TextureService where
  SetTexture : GoString → UUID → GoString → GoString → GoString → Option GoError
  UploadTexture : GoString → UUID → GoString → GoString → GoString → Option GoError
  DeleteTexture : GoString → UUID → GoString → Option GoError

/-- What the handlers use from outside this file.  From package `util`:
`GetObject(url, &result)` with `result` a `map[string]interface{}`, `ToUUID`
(returning the id or the error text), `UnsignedString` and `MessageInvalidToken`.
From package `model`: the constants `STEVE` and `ALEX`.  From the libraries:
`uuid.Parse`, `base64.StdEncoding.DecodeString` and `json.Unmarshal` into a
`map[string]interface{}` (`none` is a non-nil error; JSON `null` leaves the nil
map). -/
structure Env where
  textureService : TextureService
  GetObject : GoString → Except GoError GoMap
  ToUUID : GoString → Except GoString UUID
  UnsignedString : UUID → GoString
  MessageInvalidToken : GoString
  STEVE : GoString
  ALEX : GoString
  Parse : GoString → Option UUID
  DecodeString : GoString → Option GoString
  Unmarshal : GoString → Option GoMap

/-- The error objects the handlers serialise with `c.AbortWithStatusJSON`. -/
inductive ErrorBody where
  | NewForbiddenOperationError (msg : GoString)
  | NewIllegalArgumentError (msg : GoString)
  | literal (e : YggdrasilError)
  deriving DecidableEq

/-- How a handler ends: `c.AbortWithStatusJSON(code, body)`, `c.Status(code)`,
`util.HandleError(c, err)`, or a run-time panic that unwinds out of the handler. -/
inductive Response where
  | abortWithStatusJSON (code : Nat) (body : ErrorBody)
  | status (code : Nat)
  | handleError (err : GoError)
  | panicked
  deriving DecidableEq

/-- A call on the texture service, with its arguments in source order. -/
inductive StoreCall where
  | SetTexture (accessToken : GoString) (profileId : UUID) (url : GoString)
      (textureType : GoString) (modelType : GoString)
  | UploadTexture (accessToken : GoString) (profileId : UUID) (file : GoString)
      (textureType : GoString) (modelType : GoString)
  | DeleteTexture (accessToken : GoString) (profileId : UUID) (textureType : GoString)
  deriving DecidableEq

/-- What a handler did: the URLs passed to `util.GetObject`, the calls on the
texture service, and the response. -/
structure Result where
  lookups : List GoString
  store : List StoreCall
  response : Response
  deriving DecidableEq

/-! ## `SetTexture` -/

/-- The URL of the account lookup (line 97). -/
def accountUrl (username : GoString) : GoString :=
  ascii "https://api.mojang.com/users/profiles/minecraft/" ++ username

/-- The URL of the profile lookup (line 125). -/
def profileUrl (env : Env) (id : UUID) : GoString :=
  ascii "https://sessionserver.mojang.com/session/minecraft/profile/" ++ env.UnsignedString id

/-- Lines 94-119: the value of `newUUID` after the level-2 block, or `none` on
each of the four exits through `c.Status(404)`. -/
def accountStage (env : Env) (request : SetTextureRequest) : Option UUID :=
  if request.ForceMojangSkin = 2 then
    match env.GetObject (accountUrl request.Username) with
    | Except.error _ => none
    | Except.ok result =>
      match GoMap.get result (ascii "name") with
      | GoVal.str _ =>
        match GoMap.get result (ascii "id") with
        | GoVal.str idStr => env.Parse idStr
        | _ => none
      | _ => none
  else some uuid.Nil

/-- The outcome of the loop over `properties`: it ran to its end or to `break`
with `request.Url` as given, or a type assertion panicked. -/
inductive Scan where
  | done (url : GoString)
  | panicked
  deriving DecidableEq

/-- Lines 142-171: the loop over `properties`, started with `request.Url = url`. -/
def scanProperties (env : Env) (url : GoString) : List GoVal → Scan
  | [] => Scan.done url
  | prop :: rest =>
    match prop with
    | GoVal.obj propMap =>
      if (GoMap.get propMap (ascii "name")).eqString (ascii "textures") then
        match GoMap.get propMap (ascii "value") with
        | GoVal.str textureValue =>
          match env.DecodeString textureValue with
          | none => scanProperties env url rest
          | some decodedValue =>
            match env.Unmarshal decodedValue with
            | none => scanProperties env url rest
            | some textureData =>
              -- line 161: the first assertion has no `ok`, so it panics
              match GoMap.get textureData (ascii "textures") with
              | GoVal.obj textures =>
                match GoMap.get textures (ascii "SKIN") with
                | GoVal.obj skinData =>
                  match GoMap.get skinData (ascii "url") with
                  | GoVal.str skinUrl => Scan.done skinUrl
                  | _ => scanProperties env url rest
                | _ => scanProperties env url rest
              | _ => Scan.panicked
        | _ => scanProperties env url rest
      else scanProperties env url rest
    | _ => scanProperties env url rest

/-- Lines 173-178: the call on the texture service and the response after it. -/
def storeSetTexture (env : Env) (lookups : List GoString) (accessToken : GoString)
    (profileId : UUID) (url textureType modelType : GoString) : Result :=
  let call := StoreCall.SetTexture accessToken profileId url textureType modelType
  match env.textureService.SetTexture accessToken profileId url textureType modelType with
  | some err => ⟨lookups, [call], Response.handleError err⟩
  | none => ⟨lookups, [call], Response.status StatusNoContent⟩

/-- Lines 120-178: the profile lookup, the scan and the store call, entered with
`request.ForceMojangSkin > 0`, the given `newUUID` and the lookups made so far. -/
def profileStage (env : Env) (lookups : List GoString) (accessToken : GoString)
    (profileId : UUID) (textureType modelType : GoString) (request : SetTextureRequest)
    (newUUID : UUID) : Result :=
  let newUUID := if newUUID = uuid.Nil then profileId else newUUID
  let lookups := lookups ++ [profileUrl env newUUID]
  match env.GetObject (profileUrl env newUUID) with
  | Except.error resultErr =>
    match errorsAs resultErr with
    | some yggErr =>
      if yggErr.Status = 204 then ⟨lookups, [], Response.status 404⟩
      else ⟨lookups, [], Response.handleError resultErr⟩
    | none => ⟨lookups, [], Response.handleError resultErr⟩
  | Except.ok result =>
    match GoMap.get result (ascii "properties") with
    | GoVal.arr properties =>
      if properties.length = 0 then
        ⟨lookups, [], Response.handleError
          (fmtErrorf (ascii "properties not found or of incorrect type in result"))⟩
      else
        match scanProperties env request.Url properties with
        | Scan.panicked => ⟨lookups, [], Response.panicked⟩
        | Scan.done url =>
          storeSetTexture env lookups accessToken profileId url textureType modelType
    | _ =>
      ⟨lookups, [], Response.handleError
        (fmtErrorf (ascii "properties not found or of incorrect type in result"))⟩

/-- Lines 90-178: what `SetTexture` does once the four gates are passed. -/
def resolveAndStore (env : Env) (accessToken : GoString) (profileId : UUID)
    (textureType : GoString) (request : SetTextureRequest) : Result :=
  let modelType := if request.Model = [] then env.STEVE else request.Model
  let lookups := if request.ForceMojangSkin = 2 then [accountUrl request.Username] else []
  match accountStage env request with
  | none => ⟨lookups, [], Response.status 404⟩
  | some newUUID =>
    if request.ForceMojangSkin > 0 then
      profileStage env lookups accessToken profileId textureType modelType request newUUID
    else
      storeSetTexture env lookups accessToken profileId request.Url textureType modelType

/-- The handler `textureRouterImpl.SetTexture` (lines 67-179). -/
def SetTexture (env : Env) (c : Context) : Result :=
  match c.ShouldBindJSON ⟨[], env.STEVE, 0, []⟩ with
  | Except.error err =>
    ⟨[], [], Response.abortWithStatusJSON StatusForbidden
      (ErrorBody.NewForbiddenOperationError err)⟩
  | Except.ok request =>
    let bearerToken := c.GetHeader (ascii "Authorization")
    if bearerToken.length < 8 then
      ⟨[], [], Response.abortWithStatusJSON StatusUnauthorized
        (ErrorBody.NewForbiddenOperationError env.MessageInvalidToken)⟩
    else
      let accessToken := bearerToken.drop 7
      match env.ToUUID (c.Param (ascii "uuid")) with
      | Except.error err =>
        ⟨[], [], Response.abortWithStatusJSON StatusBadRequest
          (ErrorBody.NewIllegalArgumentError err)⟩
      | Except.ok profileId =>
        let textureType := c.Param (ascii "textureType")
        if textureType ≠ ascii "skin" ∧ textureType ≠ ascii "cape" then
          ⟨[], [], Response.abortWithStatusJSON StatusBadRequest
            (ErrorBody.NewIllegalArgumentError (ascii "Invalid texture type."))⟩
        else
          resolveAndStore env accessToken profileId textureType request

/-! ## `UploadTexture` and `DeleteTexture` -/

/-- The handler `textureRouterImpl.UploadTexture` (lines 181-227). -/
def UploadTexture (env : Env) (c : Context) : Result :=
  let bearerToken := c.GetHeader (ascii "Authorization")
  if bearerToken.length < 8 then
    ⟨[], [], Response.abortWithStatusJSON StatusUnauthorized
      (ErrorBody.NewForbiddenOperationError env.MessageInvalidToken)⟩
  else
    let accessToken := bearerToken.drop 7
    match env.ToUUID (c.Param (ascii "uuid")) with
    | Except.error err =>
      ⟨[], [], Response.abortWithStatusJSON StatusBadRequest
        (ErrorBody.NewIllegalArgumentError err)⟩
    | Except.ok profileId =>
      let textureType := c.Param (ascii "textureType")
      if textureType ≠ ascii "skin" ∧ textureType ≠ ascii "cape" then
        ⟨[], [], Response.abortWithStatusJSON StatusBadRequest
          (ErrorBody.NewIllegalArgumentError (ascii "Invalid texture type."))⟩
      else
        let modelStr := c.PostForm (ascii "model")
        let modelType := if modelStr = ascii "ALEX" then env.ALEX else env.STEVE
        match c.FormFile (ascii "file") with
        | Except.error err =>
          ⟨[], [], Response.abortWithStatusJSON StatusBadRequest
            (ErrorBody.NewIllegalArgumentError err)⟩
        | Except.ok file =>
          if file.Size > 2 ^ 20 then
            ⟨[], [], Response.abortWithStatusJSON StatusBadRequest
              (ErrorBody.NewIllegalArgumentError (ascii "File too large(more than 1MiB)"))⟩
          else
            match file.Open with
            | Except.error _ =>
              ⟨[], [], Response.abortWithStatusJSON StatusInternalServerError
                (ErrorBody.literal
                  ⟨0, ascii "Internal Server Error", ascii "Can not open file."⟩)⟩
            | Except.ok fileReader =>
              let call :=
                StoreCall.UploadTexture accessToken profileId fileReader textureType modelType
              match env.textureService.UploadTexture accessToken profileId fileReader
                  textureType modelType with
              | some err => ⟨[], [call], Response.handleError err⟩
              | none => ⟨[], [call], Response.status StatusNoContent⟩

/-- The handler `textureRouterImpl.DeleteTexture` (lines 229-252). -/
def DeleteTexture (env : Env) (c : Context) : Result :=
  let bearerToken := c.GetHeader (ascii "Authorization")
  if bearerToken.length < 8 then
    ⟨[], [], Response.abortWithStatusJSON StatusUnauthorized
      (ErrorBody.NewForbiddenOperationError env.MessageInvalidToken)⟩
  else
    let accessToken := bearerToken.drop 7
    match env.ToUUID (c.Param (ascii "uuid")) with
    | Except.error err =>
      ⟨[], [], Response.abortWithStatusJSON StatusBadRequest
        (ErrorBody.NewIllegalArgumentError err)⟩
    | Except.ok profileId =>
      let textureType := c.Param (ascii "textureType")
      if textureType ≠ ascii "skin" ∧ textureType ≠ ascii "cape" then
        ⟨[], [], Response.abortWithStatusJSON StatusBadRequest
          (ErrorBody.NewIllegalArgumentError (ascii "Invalid texture type."))⟩
      else
        let call := StoreCall.DeleteTexture accessToken profileId textureType
        match env.textureService.DeleteTexture accessToken profileId textureType with
        | some err => ⟨[], [call], Response.handleError err⟩
        | none => ⟨[], [call], Response.status StatusNoContent⟩

/-- Lines 198-226 of `UploadTexture`: what the handler does once the token, the
profile id and the texture type are accepted. -/
def uploadFile (env : Env) (c : Context) (accessToken : GoString) (profileId : UUID)
    (textureType : GoString) : Result :=
  let modelStr := c.PostForm (ascii "model")
  let modelType := if modelStr = ascii "ALEX" then env.ALEX else env.STEVE
  match c.FormFile (ascii "file") with
  | Except.error err =>
    ⟨[], [], Response.abortWithStatusJSON StatusBadRequest
      (ErrorBody.NewIllegalArgumentError err)⟩
  | Except.ok file =>
    if file.Size > 2 ^ 20 then
      ⟨[], [], Response.abortWithStatusJSON StatusBadRequest
        (ErrorBody.NewIllegalArgumentError (ascii "File too large(more than 1MiB)"))⟩
    else
      match file.Open with
      | Except.error _ =>
        ⟨[], [], Response.abortWithStatusJSON StatusInternalServerError
          (ErrorBody.literal ⟨0, ascii "Internal Server Error", ascii "Can not open file."⟩)⟩
      | Except.ok fileReader =>
        let call :=
          StoreCall.UploadTexture accessToken profileId fileReader textureType modelType
        match env.textureService.UploadTexture accessToken profileId fileReader
            textureType modelType with
        | some err => ⟨[], [call], Response.handleError err⟩
        | none => ⟨[], [call], Response.status StatusNoContent⟩

/-- Lines 246-251 of `DeleteTexture`: the call on the texture service and the
response after it. -/
def storeDeleteTexture (env : Env) (accessToken : GoString) (profileId : UUID)
    (textureType : GoString) : Result :=
  let call := StoreCall.DeleteTexture accessToken profileId textureType
  match env.textureService.DeleteTexture accessToken profileId textureType with
  | some err => ⟨[], [call], Response.handleError err⟩
  | none => ⟨[], [call], Response.status StatusNoContent⟩

/-! ## Vocabulary of the statements -/

/-- The request passes the four gates of `SetTexture`: the body binds to `request`,
the `Authorization` header has at least eight bytes, the `uuid` path segment is read
as `profileId`, and the `textureType` path segment is `skin` or `cape`. -/
structure Gates (env : Env) (c : Context) (request : SetTextureRequest)
    (profileId : UUID) : Prop where
  body : c.ShouldBindJSON ⟨[], env.STEVE, 0, []⟩ = Except.ok request
  token : 8 ≤ (c.GetHeader (ascii "Authorization")).length
  uuid : env.ToUUID (c.Param (ascii "uuid")) = Except.ok profileId
  textureType :
    c.Param (ascii "textureType") = ascii "skin" ∨ c.Param (ascii "textureType") = ascii "cape"

/-- The access token of a request: the `Authorization` header from its eighth byte. -/
def accessTokenOf (c : Context) : GoString := (c.GetHeader (ascii "Authorization")).drop 7

/-- The model type handed to the store: the bound model, or `STEVE` for an empty one. -/
def modelTypeOf (env : Env) (request : SetTextureRequest) : GoString :=
  if request.Model = [] then env.STEVE else request.Model

/-- The call `SetTexture` makes on the store for a request, with the given url. -/
def storeCallOf (env : Env) (c : Context) (request : SetTextureRequest) (profileId : UUID)
    (url : GoString) : StoreCall :=
  StoreCall.SetTexture (accessTokenOf c) profileId url (c.Param (ascii "textureType"))
    (modelTypeOf env request)

/-- The response after the store call with the given url: `util.HandleError` on the
error of the store, `204 No Content` without one. -/
def storeResponseOf (env : Env) (c : Context) (request : SetTextureRequest)
    (profileId : UUID) (url : GoString) : Response :=
  match env.textureService.SetTexture (accessTokenOf c) profileId url
      (c.Param (ascii "textureType")) (modelTypeOf env request) with
  | some err => Response.handleError err
  | none => Response.status StatusNoContent

/-- The id of the profile lookup, given `newUUID` as the account stage leaves it. -/
def targetId (profileId newUUID : UUID) : UUID :=
  if newUUID = uuid.Nil then profileId else newUUID

/-- An entry of `properties` is named `textures`: it is an object whose `name` is
that string. -/
def namedTextures : GoVal → Bool
  | GoVal.obj propMap => (GoMap.get propMap (ascii "name")).eqString (ascii "textures")
  | _ => false

/-- An entry named `textures` has a string value that base64-decodes to JSON with the
string `u` at `textures.SKIN.url`. -/
def HasSkinUrl (env : Env) (entry : GoVal) (u : GoString) : Prop :=
  ∃ propMap textureValue decodedValue textureData textures skinData,
    entry = GoVal.obj propMap ∧
    (GoMap.get propMap (ascii "name")).eqString (ascii "textures") = true ∧
    GoMap.get propMap (ascii "value") = GoVal.str textureValue ∧
    env.DecodeString textureValue = some decodedValue ∧
    env.Unmarshal decodedValue = some textureData ∧
    GoMap.get textureData (ascii "textures") = GoVal.obj textures ∧
    GoMap.get textures (ascii "SKIN") = GoVal.obj skinData ∧
    GoMap.get skinData (ascii "url") = GoVal.str u

/-- An entry carries no valid base64: whenever its value is a string, decoding fails. -/
def CorruptBase64 (env : Env) : GoVal → Prop
  | GoVal.obj propMap =>
    ∀ textureValue, GoMap.get propMap (ascii "value") = GoVal.str textureValue →
      env.DecodeString textureValue = none
  | _ => True

/-- The error of line 139. -/
def propertiesError : GoError :=
  fmtErrorf (ascii "properties not found or of incorrect type in result")

/-- The level-2 account lookup for `username` fails: the lookup returns an error, or
its response has no string `name`, or no string `id`, or an `id` that `uuid.Parse`
rejects. -/
inductive AccountFailure (env : Env) (username : GoString) : Prop where
  | lookup (err : GoError) (h : env.GetObject (accountUrl username) = Except.error err)
  | noName (result : GoMap) (h : env.GetObject (accountUrl username) = Except.ok result)
      (hname : ∀ s, GoMap.get result (ascii "name") ≠ GoVal.str s)
  | noId (result : GoMap) (h : env.GetObject (accountUrl username) = Except.ok result)
      (hid : ∀ s, GoMap.get result (ascii "id") ≠ GoVal.str s)
  | badId (result : GoMap) (h : env.GetObject (accountUrl username) = Except.ok result)
      (idStr : GoString) (hid : GoMap.get result (ascii "id") = GoVal.str idStr)
      (hparse : env.Parse idStr = none)

/-- The error `err` is the `YggdrasilError` `yggErr`, or wraps it. -/
inductive IsOrWraps (yggErr : YggdrasilError) : GoError → Prop where
  | self : IsOrWraps yggErr (GoError.ygg yggErr)
  | wrap (msg : GoString) (inner : GoError) (h : IsOrWraps yggErr inner) :
      IsOrWraps yggErr (GoError.wrap msg inner)

/-- The resolution of `SetTexture` succeeds with the final url `url`: below level
one nothing is looked up and `url` is the url of the request; from level one on the
account stage leaves an id, the profile lookup succeeds with a non-empty
`properties` list, and the scan of that list ends, without a panic, at `url`. -/
def Resolved (env : Env) (request : SetTextureRequest) (profileId : UUID)
    (url : GoString) : Prop :=
  (request.ForceMojangSkin ≤ 0 ∧ url = request.Url) ∨
  (1 ≤ request.ForceMojangSkin ∧
    ∃ newUUID result properties,
      accountStage env request = some newUUID ∧
      env.GetObject (profileUrl env (targetId profileId newUUID)) = Except.ok result ∧
      GoMap.get result (ascii "properties") = GoVal.arr properties ∧
      properties ≠ [] ∧
      scanProperties env request.Url properties = Scan.done url)

/-- The token and profile-id gates of `UploadTexture` and `DeleteTexture`: the
`Authorization` header has at least eight bytes and the `uuid` path segment is read
as `profileId`. -/
structure PathGates (env : Env) (c : Context) (profileId : UUID) : Prop where
  token : 8 ≤ (c.GetHeader (ascii "Authorization")).length
  uuid : env.ToUUID (c.Param (ascii "uuid")) = Except.ok profileId

/-- The response `400 Bad Request` of the texture-type gate, with no lookup and no
call on the store. -/
def invalidTextureType : Result :=
  ⟨[], [], Response.abortWithStatusJSON StatusBadRequest
    (ErrorBody.NewIllegalArgumentError (ascii "Invalid texture type."))⟩

/-- The response `400 Bad Request` of the size check of `UploadTexture`, with no
call on the store. -/
def fileTooLarge : Result :=
  ⟨[], [], Response.abortWithStatusJSON StatusBadRequest
    (ErrorBody.NewIllegalArgumentError (ascii "File too large(more than 1MiB)"))⟩

/-- The same request with `forceMojangSkin` bound to `level`. -/
def withLevel (c : Context) (level : Int) : Context :=
  { c with
    ShouldBindJSON := fun init =>
      match c.ShouldBindJSON init with
      | Except.ok request => Except.ok { request with ForceMojangSkin := level }
      | Except.error err => Except.error err }

/-- The same request with `username` bound to `username`. -/
def withUsername (c : Context) (username : GoString) : Context :=
  { c with
    ShouldBindJSON := fun init =>
      match c.ShouldBindJSON init with
      | Except.ok request => Except.ok { request with Username := username }
      | Except.error err => Except.error err }

/-- The response `401 Unauthorized` with the invalid-token error, no lookup and no
call on the store. -/
def invalidToken (env : Env) : Result :=
  ⟨[], [], Response.abortWithStatusJSON StatusUnauthorized
    (ErrorBody.NewForbiddenOperationError env.MessageInvalidToken)⟩

/-! ## A concrete environment -/

/-- The lower-case hexadecimal digit of a number below sixteen. -/
def hexDigit (n : Nat) : UInt8 :=
  if n < 10 then UInt8.ofNat (48 + n) else UInt8.ofNat (87 + n)

/-- The last `k` hexadecimal digits of `n`, most significant first. -/
def hexString : Nat → Nat → GoString
  | 0, _ => []
  | k + 1, n => hexString k (n / 16) ++ [hexDigit (n % 16)]

/-- The value of a hexadecimal digit, either case. -/
def hexValue (b : UInt8) : Option Nat :=
  let n := b.toNat
  if 48 ≤ n ∧ n ≤ 57 then some (n - 48)
  else if 97 ≤ n ∧ n ≤ 102 then some (n - 87)
  else if 65 ≤ n ∧ n ≤ 70 then some (n - 55)
  else none

/-- The number written by a string of hexadecimal digits, read after `acc`. -/
def parseHex (acc : Nat) : GoString → Option Nat
  | [] => some acc
  | b :: rest =>
    match hexValue b with
    | some d => parseHex (acc * 16 + d) rest
    | none => none

/-- The id written by thirty-two hexadecimal digits, as `uuid.Parse` reads them. -/
def parseUndashed (s : GoString) : Option UUID :=
  if s.length = 32 then
    (parseHex 0 s).map (fun n => ⟨n % 2 ^ 128, Nat.mod_lt n (by decide)⟩)
  else none

/-- The JSON text of a manifest whose skin URL is `https://example/s.png`. -/
def skinJson : GoString :=
  ascii "\x7b\"textures\":\x7b\"SKIN\":\x7b\"url\":\"https://example/s.png\"\x7d\x7d\x7d"

/-- The standard base64 text of `skinJson`. -/
def skinBase64 : GoString :=
  ascii "eyJ0ZXh0dXJlcyI6eyJTS0lOIjp7InVybCI6Imh0dHBzOi8vZXhhbXBsZS9zLnBuZyJ9fX0="

/-- The map `json.Unmarshal` builds from `skinJson`. -/
def skinMap : GoMap :=
  [(ascii "textures",
    GoVal.obj [(ascii "SKIN", GoVal.obj [(ascii "url", GoVal.str (ascii "https://example/s.png"))])])]

/-- A texture service that accepts every call. -/
def acceptAll : TextureService :=
  ⟨fun _ _ _ _ _ => none, fun _ _ _ _ _ => none, fun _ _ _ => none⟩

/-- A concrete environment.  The account lookup knows the user `Notch` and a user
`Zero` whose id is all zeros, and fails for the user `Gone`; every other lookup
answers `profile`.  Ids are read and written in hexadecimal; base64 and JSON know
`skinJson`, the empty object `e30=` and `null` (`bnVsbA==`). -/
def demoEnv (profile : Except GoError GoMap) : Env where
  textureService := acceptAll
  GetObject := fun url =>
    if url = accountUrl (ascii "Notch") then
      Except.ok [(ascii "id", GoVal.str (ascii "069a79f444e94726a5befca90e38aaf5")),
        (ascii "name", GoVal.str (ascii "Notch"))]
    else if url = accountUrl (ascii "Zero") then
      Except.ok [(ascii "id", GoVal.str (ascii "00000000000000000000000000000000")),
        (ascii "name", GoVal.str (ascii "Zero"))]
    else if url = accountUrl (ascii "Gone") then
      Except.error (GoError.other (ascii "404 Not Found"))
    else profile
  ToUUID := fun s =>
    match parseUndashed (s.filter (fun b => b != 45)) with
    | some id => Except.ok id
    | none => Except.error (ascii "invalid UUID format")
  UnsignedString := fun id => hexString 32 id.val
  MessageInvalidToken := ascii "Invalid token."
  STEVE := ascii "default"
  ALEX := ascii "slim"
  Parse := parseUndashed
  DecodeString := fun s =>
    if s = skinBase64 then some skinJson
    else if s = ascii "e30=" then some (ascii "\x7b\x7d")
    else if s = ascii "bnVsbA==" then some (ascii "null")
    else none
  Unmarshal := fun s =>
    if s = skinJson then some skinMap
    else if s = ascii "\x7b\x7d" then some []
    else if s = ascii "null" then some []
    else none

/-- A request on `/texture/11111111-2222-3333-4444-555555555555/skin` with the given
`Authorization` header and the given outcome of binding the body; it has no form
fields and no file. -/
def contextWith (authorization : GoString) (bound : Except GoString SetTextureRequest) :
    Context where
  GetHeader := fun k => if k = ascii "Authorization" then authorization else []
  Param := fun k =>
    if k = ascii "uuid" then ascii "11111111-2222-3333-4444-555555555555"
    else if k = ascii "textureType" then ascii "skin"
    else []
  PostForm := fun _ => []
  FormFile := fun _ => Except.error (ascii "http: no such file")
  ShouldBindJSON := fun _ => bound

/-- The request of `contextWith` with a bearer token and a body that binds to
`request`. -/
def demoContext (request : SetTextureRequest) : Context :=
  contextWith (ascii "Bearer token123") (Except.ok request)

/-- A profile response whose `properties` list is `props`. -/
def profileWith (props : List GoVal) : Except GoError GoMap :=
  Except.ok [(ascii "id", GoVal.str (ascii "11111111222233334444555555555555")),
    (ascii "properties", GoVal.arr props)]

/-- A property entry with the given name and value. -/
def property (name value : GoString) : GoVal :=
  GoVal.obj [(ascii "name", GoVal.str name), (ascii "value", GoVal.str value)]

/-- A `POST` on `/texture/11111111-2222-3333-4444-555555555555/` followed by
`textureType`, with a bearer token, the form field `model` set to `modelField` and
the given outcome of reading the form file. -/
def uploadContext (textureType modelField : GoString)
    (file : Except GoString FileHeader) : Context where
  GetHeader := fun k => if k = ascii "Authorization" then ascii "Bearer token123" else []
  Param := fun k =>
    if k = ascii "uuid" then ascii "11111111-2222-3333-4444-555555555555"
    else if k = ascii "textureType" then textureType
    else []
  PostForm := fun k => if k = ascii "model" then modelField else []
  FormFile := fun k => if k = ascii "file" then file else Except.error (ascii "http: no such file")
  ShouldBindJSON := fun _ => Except.ok ⟨ascii "https://client/u.png", [], 0, []⟩

/-- A form file of the given size that opens and yields the bytes `PNG`. -/
def fileOfSize (size : Int) : Except GoString FileHeader :=
  Except.ok ⟨size, Except.ok (ascii "PNG")⟩

/-- The id of the path of `demoContext`. -/
def demoProfileId : UUID := ⟨0x11111111222233334444555555555555, by decide⟩

/-- The id of the account `Notch`. -/
def notchId : UUID := ⟨0x069a79f444e94726a5befca90e38aaf5, by decide⟩

/-- The url the client sends in the examples. -/
def clientUrl : GoString := ascii "https://client/u.png"

/-! ## Lemmas on the gates, the account stage, the profile stage and the scan -/

/-- The demo request passes the four gates. -/
theorem demo_gates (profile : Except GoError GoMap) (request : SetTextureRequest) :
    Gates (demoEnv profile) (demoContext request) request demoProfileId :=
  ⟨rfl, (by decide : 8 ≤ (ascii "Bearer token123").length), rfl, Or.inl rfl⟩

/-- Past the four gates, `SetTexture` is the skin import followed by the store call. -/
theorem SetTexture_of_gates {env : Env} {c : Context} {request : SetTextureRequest}
    {profileId : UUID} (hg : Gates env c request profileId) :
    SetTexture env c =
      resolveAndStore env (accessTokenOf c) profileId (c.Param (ascii "textureType")) request := by
  have htok : ¬ (c.GetHeader (ascii "Authorization")).length < 8 := Nat.not_lt.mpr hg.token
  have htype : ¬ (c.Param (ascii "textureType") ≠ ascii "skin" ∧
      c.Param (ascii "textureType") ≠ ascii "cape") := by
    rcases hg.textureType with h | h <;> simp [h]
  unfold SetTexture
  simp only [hg.body, hg.uuid, htok, htype, if_false, accessTokenOf]

/-- The scan passes over every entry that is not named `textures`. -/
theorem scanProperties_skip (env : Env) (url : GoString) (pre rest : List GoVal)
    (hpre : ∀ p ∈ pre, namedTextures p = false) :
    scanProperties env url (pre ++ rest) = scanProperties env url rest := by
  induction pre with
  | nil => rfl
  | cons p pre ih =>
    have hp : namedTextures p = false := hpre p (List.mem_cons_self p pre)
    have hrest : ∀ q ∈ pre, namedTextures q = false :=
      fun q hq => hpre q (List.mem_cons_of_mem p hq)
    cases p <;> simp_all [scanProperties, namedTextures]

/-- The scan stops at an entry that carries a skin url, with that url. -/
theorem scanProperties_hit (env : Env) (url u : GoString) (entry : GoVal)
    (post : List GoVal) (h : HasSkinUrl env entry u) :
    scanProperties env url (entry :: post) = Scan.done u := by
  obtain ⟨propMap, textureValue, decodedValue, textureData, textures, skinData,
    rfl, hname, hvalue, hdec, hjson, htex, hskin, hurl⟩ := h
  simp [scanProperties, hname, hvalue, hdec, hjson, htex, hskin, hurl]

/-- The scan of a list whose entries named `textures` all fail to decode runs to
its end and leaves the url as it was. -/
theorem scanProperties_corrupt (env : Env) (url : GoString) (properties : List GoVal)
    (h : ∀ p ∈ properties, namedTextures p = true → CorruptBase64 env p) :
    scanProperties env url properties = Scan.done url := by
  induction properties with
  | nil => rfl
  | cons p rest ih =>
    have ih2 := ih (fun q hq => h q (List.mem_cons_of_mem p hq))
    have hp := h p (List.mem_cons_self p rest)
    cases p with
    | obj propMap =>
      simp only [scanProperties]
      split
      · rename_i hname
        have hc := hp (by simpa [namedTextures] using hname)
        split
        · rename_i textureValue hvalue
          simp [CorruptBase64] at hc
          simp [hc textureValue hvalue, ih2]
        · exact ih2
      · exact ih2
    | _ => simpa [scanProperties] using ih2

/-- The store call leaves exactly one call on record. -/
theorem storeSetTexture_store (env : Env) (lookups : List GoString)
    (accessToken : GoString) (profileId : UUID) (url textureType modelType : GoString) :
    (storeSetTexture env lookups accessToken profileId url textureType modelType).store =
      [StoreCall.SetTexture accessToken profileId url textureType modelType] := by
  unfold storeSetTexture
  cases env.textureService.SetTexture accessToken profileId url textureType modelType <;> rfl

/-- The response after the store call is the one the outcome of the store decides. -/
theorem storeSetTexture_response (env : Env) (lookups : List GoString)
    (accessToken : GoString) (profileId : UUID) (url textureType modelType : GoString) :
    (storeSetTexture env lookups accessToken profileId url textureType modelType).response =
      match env.textureService.SetTexture accessToken profileId url textureType modelType with
      | some err => Response.handleError err
      | none => Response.status StatusNoContent := by
  unfold storeSetTexture
  cases env.textureService.SetTexture accessToken profileId url textureType modelType <;> rfl

/-- The store call makes no lookup of its own. -/
theorem storeSetTexture_lookups (env : Env) (lookups : List GoString)
    (accessToken : GoString) (profileId : UUID) (url textureType modelType : GoString) :
    (storeSetTexture env lookups accessToken profileId url textureType modelType).lookups =
      lookups := by
  unfold storeSetTexture
  cases env.textureService.SetTexture accessToken profileId url textureType modelType <;> rfl

/-- With a successful profile lookup and a non-empty `properties` list, the profile
stage is the scan followed by the store call. -/
theorem profileStage_scan (env : Env) (lookups : List GoString) (accessToken : GoString)
    (profileId : UUID) (textureType modelType : GoString) (request : SetTextureRequest)
    (newUUID : UUID) (result : GoMap) (properties : List GoVal)
    (hprofile : env.GetObject (profileUrl env (targetId profileId newUUID)) = Except.ok result)
    (hprops : GoMap.get result (ascii "properties") = GoVal.arr properties)
    (hne : properties ≠ []) :
    profileStage env lookups accessToken profileId textureType modelType request newUUID =
      match scanProperties env request.Url properties with
      | Scan.panicked =>
        ⟨lookups ++ [profileUrl env (targetId profileId newUUID)], [], Response.panicked⟩
      | Scan.done url =>
        storeSetTexture env (lookups ++ [profileUrl env (targetId profileId newUUID)])
          accessToken profileId url textureType modelType := by
  have hlen : ¬ properties.length = 0 := fun h => hne (List.length_eq_zero.mp h)
  unfold profileStage
  unfold targetId at hprofile
  simp only [hprofile, hprops, hlen, if_false, targetId]

/-- Past the gates and the account stage, at level one or above, `SetTexture` is the
profile stage. -/
theorem SetTexture_profileStage {env : Env} {c : Context} {request : SetTextureRequest}
    {profileId newUUID : UUID} (hg : Gates env c request profileId)
    (hlevel : 1 ≤ request.ForceMojangSkin)
    (hacct : accountStage env request = some newUUID) :
    SetTexture env c =
      profileStage env (if request.ForceMojangSkin = 2 then [accountUrl request.Username] else [])
        (accessTokenOf c) profileId (c.Param (ascii "textureType")) (modelTypeOf env request)
        request newUUID := by
  have hpos : request.ForceMojangSkin > 0 := by omega
  rw [SetTexture_of_gates hg]
  unfold resolveAndStore
  simp only [hacct, hpos, if_true, modelTypeOf]

/-- A failed account lookup leaves the account stage without an id. -/
theorem accountStage_of_failure (env : Env) (request : SetTextureRequest)
    (hlevel : request.ForceMojangSkin = 2) (hfail : AccountFailure env request.Username) :
    accountStage env request = none := by
  unfold accountStage
  rw [if_pos hlevel]
  cases hfail with
  | lookup err h => simp only [h]
  | noName result h hname =>
    rw [h]
    show (match GoMap.get result (ascii "name") with
      | GoVal.str _ =>
        match GoMap.get result (ascii "id") with
        | GoVal.str idStr => env.Parse idStr
        | _ => none
      | _ => none) = none
    cases hn : GoMap.get result (ascii "name") with
    | str s => exact absurd hn (hname s)
    | _ => rfl
  | noId result h hid =>
    rw [h]
    show (match GoMap.get result (ascii "name") with
      | GoVal.str _ =>
        match GoMap.get result (ascii "id") with
        | GoVal.str idStr => env.Parse idStr
        | _ => none
      | _ => none) = none
    cases hn : GoMap.get result (ascii "name") with
    | str s =>
      show (match GoMap.get result (ascii "id") with
        | GoVal.str idStr => env.Parse idStr
        | _ => none) = none
      cases hi : GoMap.get result (ascii "id") with
      | str idStr => exact absurd hi (hid idStr)
      | _ => rfl
    | _ => rfl
  | badId result h idStr hid hparse =>
    rw [h]
    show (match GoMap.get result (ascii "name") with
      | GoVal.str _ =>
        match GoMap.get result (ascii "id") with
        | GoVal.str idStr => env.Parse idStr
        | _ => none
      | _ => none) = none
    rw [hid]
    cases hn : GoMap.get result (ascii "name") with
    | str s => exact hparse
    | _ => rfl

/-- Past the gates at level two, an account stage without an id ends the request
with `c.Status(404)`, after the account lookup alone. -/
theorem SetTexture_account_none {env : Env} {c : Context} {request : SetTextureRequest}
    {profileId : UUID} (hg : Gates env c request profileId)
    (hlevel : request.ForceMojangSkin = 2) (hacct : accountStage env request = none) :
    SetTexture env c = ⟨[accountUrl request.Username], [], Response.status 404⟩ := by
  rw [SetTexture_of_gates hg]
  unfold resolveAndStore
  simp only [hacct, hlevel, if_true]

/-- Every exit of the profile stage has made exactly one more lookup, of the profile
of the target id. -/
theorem profileStage_lookups (env : Env) (lookups : List GoString) (accessToken : GoString)
    (profileId : UUID) (textureType modelType : GoString) (request : SetTextureRequest)
    (newUUID : UUID) :
    (profileStage env lookups accessToken profileId textureType modelType request
      newUUID).lookups = lookups ++ [profileUrl env (targetId profileId newUUID)] := by
  unfold profileStage targetId
  simp only []
  split
  · split
    · split <;> rfl
    · rfl
  · split
    · split
      · rfl
      · split
        · rfl
        · exact storeSetTexture_lookups _ _ _ _ _ _ _
    · rfl

/-- The profile stage on a failed profile lookup: `c.Status(404)` when `errors.As`
finds a `YggdrasilError` of status 204, `util.HandleError` on the error otherwise. -/
theorem profileStage_error (env : Env) (lookups : List GoString) (accessToken : GoString)
    (profileId : UUID) (textureType modelType : GoString) (request : SetTextureRequest)
    (newUUID : UUID) (resultErr : GoError)
    (hprofile :
      env.GetObject (profileUrl env (targetId profileId newUUID)) = Except.error resultErr) :
    profileStage env lookups accessToken profileId textureType modelType request newUUID =
      ⟨lookups ++ [profileUrl env (targetId profileId newUUID)], [],
        match errorsAs resultErr with
        | some yggErr =>
          if yggErr.Status = 204 then Response.status 404 else Response.handleError resultErr
        | none => Response.handleError resultErr⟩ := by
  unfold profileStage
  unfold targetId at hprofile
  simp only [hprofile, targetId]
  split
  · split <;> rfl
  · rfl

/-- What `errors.As` finds is the `YggdrasilError` the error is or wraps. -/
theorem errorsAs_eq_some_iff (err : GoError) (yggErr : YggdrasilError) :
    errorsAs err = some yggErr ↔ IsOrWraps yggErr err := by
  induction err with
  | ygg e =>
    constructor
    · intro h
      cases h
      exact IsOrWraps.self
    · intro h
      cases h
      rfl
  | wrap msg inner ih =>
    constructor
    · intro h
      exact IsOrWraps.wrap msg inner (ih.mp h)
    · intro h
      cases h with
      | wrap _ _ hinner => exact ih.mpr hinner
  | other msg =>
    constructor
    · intro h
      cases h
    · intro h
      cases h

/-! ## Properties of the handlers -/

/-- C1: past the four gates, at `skinImportLevel >= 1`, with a successful profile
response whose `properties` list is non-empty: when the first entry named `textures`
has a string value that base64-decodes to JSON with the string `u` at
`textures.SKIN.url`, the store is called exactly once, with url `u`, whatever url the
client sent and whatever entries follow. -/
theorem C1_first_textures_entry_sets_url (env : Env) (c : Context)
    (request : SetTextureRequest) (profileId newUUID : UUID) (result : GoMap)
    (pre post : List GoVal) (entry : GoVal) (u : GoString)
    (hg : Gates env c request profileId)
    (hlevel : 1 ≤ request.ForceMojangSkin)
    (hacct : accountStage env request = some newUUID)
    (hprofile : env.GetObject (profileUrl env (targetId profileId newUUID)) = Except.ok result)
    (hprops : GoMap.get result (ascii "properties") = GoVal.arr (pre ++ entry :: post))
    (hpre : ∀ p ∈ pre, namedTextures p = false)
    (hentry : HasSkinUrl env entry u) :
    (SetTexture env c).store = [storeCallOf env c request profileId u] := by
  rw [SetTexture_profileStage hg hlevel hacct,
    profileStage_scan env _ _ _ _ _ _ _ result (pre ++ entry :: post) hprofile hprops (by simp),
    scanProperties_skip env _ pre _ hpre, scanProperties_hit env _ u entry post hentry]
  exact storeSetTexture_store _ _ _ _ _ _ _

/-- C1 at a level-2 request for `Notch`: the entry named `textures` that carries
`https://example/s.png` comes after an entry of another name and before an entry
whose JSON has no `textures` key; the store receives `https://example/s.png`. -/
theorem C1_witness :
    (SetTexture
      (demoEnv (profileWith [property (ascii "uploadableTextures") (ascii "skin,cape"),
        property (ascii "textures") skinBase64, property (ascii "textures") (ascii "e30=")]))
      (demoContext ⟨clientUrl, ascii "slim", 2, ascii "Notch"⟩)).store =
      [StoreCall.SetTexture (ascii "token123") demoProfileId (ascii "https://example/s.png")
        (ascii "skin") (ascii "slim")] :=
  C1_first_textures_entry_sets_url _ _ ⟨clientUrl, ascii "slim", 2, ascii "Notch"⟩
    demoProfileId notchId _ [property (ascii "uploadableTextures") (ascii "skin,cape")]
    [property (ascii "textures") (ascii "e30=")] (property (ascii "textures") skinBase64)
    (ascii "https://example/s.png") (demo_gates _ _) (by decide) rfl rfl rfl (by decide)
    ⟨_, _, _, _, _, _, rfl, rfl, rfl, rfl, rfl, rfl, rfl, rfl⟩

/-- C2: past the four gates, at `skinImportLevel >= 1`, with a successful profile
response whose `properties` list is non-empty: when no entry named `textures` carries
valid base64, the store is called exactly once, with the url the client sent, and the
response is the one the store call decides (the import raises no error). -/
theorem C2_corrupt_base64_keeps_client_url (env : Env) (c : Context)
    (request : SetTextureRequest) (profileId newUUID : UUID) (result : GoMap)
    (properties : List GoVal)
    (hg : Gates env c request profileId)
    (hlevel : 1 ≤ request.ForceMojangSkin)
    (hacct : accountStage env request = some newUUID)
    (hprofile : env.GetObject (profileUrl env (targetId profileId newUUID)) = Except.ok result)
    (hprops : GoMap.get result (ascii "properties") = GoVal.arr properties)
    (hne : properties ≠ [])
    (hcorrupt : ∀ p ∈ properties, namedTextures p = true → CorruptBase64 env p) :
    (SetTexture env c).store = [storeCallOf env c request profileId request.Url] ∧
    (SetTexture env c).response = storeResponseOf env c request profileId request.Url := by
  rw [SetTexture_profileStage hg hlevel hacct,
    profileStage_scan env _ _ _ _ _ _ _ result properties hprofile hprops hne,
    scanProperties_corrupt env _ properties hcorrupt]
  exact ⟨storeSetTexture_store _ _ _ _ _ _ _, storeSetTexture_response _ _ _ _ _ _ _⟩

/-- C2 at a level-1 request: the only entry named `textures` has the value `!!`,
which is not base64; the store receives the url of the client and answers 204. -/
theorem C2_witness :
    (SetTexture (demoEnv (profileWith [property (ascii "textures") (ascii "!!")]))
      (demoContext ⟨clientUrl, ascii "slim", 1, []⟩)).store =
      [StoreCall.SetTexture (ascii "token123") demoProfileId clientUrl (ascii "skin")
        (ascii "slim")] ∧
    (SetTexture (demoEnv (profileWith [property (ascii "textures") (ascii "!!")]))
      (demoContext ⟨clientUrl, ascii "slim", 1, []⟩)).response = Response.status 204 :=
  C2_corrupt_base64_keeps_client_url _ _ ⟨clientUrl, ascii "slim", 1, []⟩ demoProfileId
    uuid.Nil _ [property (ascii "textures") (ascii "!!")] (demo_gates _ _) (by decide) rfl rfl
    rfl (List.cons_ne_nil _ _)
    (by
      intro p hp _
      rw [List.mem_singleton] at hp
      subst hp
      intro textureValue hvalue
      cases hvalue
      rfl)

/-- C3 at a level-1 request whose profile has one entry named `textures` with the
value `e30=`, the base64 of the empty JSON object: the handler panics at the
unchecked type assertion of line 161, after the profile lookup, and the store is not
called. -/
theorem C3_missing_textures_key_panics :
    SetTexture (demoEnv (profileWith [property (ascii "textures") (ascii "e30=")]))
      (demoContext ⟨clientUrl, ascii "slim", 1, []⟩) =
      ⟨[ascii "https://sessionserver.mojang.com/session/minecraft/profile/11111111222233334444555555555555"],
        [], Response.panicked⟩ := by
  rfl

/-- C4: past the four gates, at `skinImportLevel == 0`, no lookup is made and the
store is called exactly once, with the url of the request. -/
theorem C4_level_zero_passes_url_through (env : Env) (c : Context)
    (request : SetTextureRequest) (profileId : UUID)
    (hg : Gates env c request profileId)
    (hlevel : request.ForceMojangSkin = 0) :
    (SetTexture env c).lookups = [] ∧
    (SetTexture env c).store = [storeCallOf env c request profileId request.Url] := by
  rw [SetTexture_of_gates hg]
  unfold resolveAndStore accountStage
  simp only [hlevel]
  exact ⟨storeSetTexture_lookups _ _ _ _ _ _ _, storeSetTexture_store _ _ _ _ _ _ _⟩

/-- C4 at a level-0 request: no lookup, and the store receives the url of the client. -/
theorem C4_witness :
    (SetTexture (demoEnv (profileWith [])) (demoContext ⟨clientUrl, [], 0, []⟩)).lookups = [] ∧
    (SetTexture (demoEnv (profileWith [])) (demoContext ⟨clientUrl, [], 0, []⟩)).store =
      [StoreCall.SetTexture (ascii "token123") demoProfileId clientUrl (ascii "skin")
        (ascii "default")] :=
  C4_level_zero_passes_url_through _ _ ⟨clientUrl, [], 0, []⟩ demoProfileId (demo_gates _ _) rfl

/-- C5: past the four gates, at `skinImportLevel == 2`, when the account lookup
fails, in any of its four ways (lookup error, no string `name`, no string `id`, an id
that does not parse), the response is `404`, the profile lookup is not made and the
store is not called; the result is the same in the four cases. -/
theorem C5_account_failure_is_not_found (env : Env) (c : Context)
    (request : SetTextureRequest) (profileId : UUID)
    (hg : Gates env c request profileId)
    (hlevel : request.ForceMojangSkin = 2)
    (hfail : AccountFailure env request.Username) :
    SetTexture env c = ⟨[accountUrl request.Username], [], Response.status 404⟩ :=
  SetTexture_account_none hg hlevel (accountStage_of_failure env request hlevel hfail)

/-- C5 at a level-2 request for the user `Gone`, whose account lookup fails. -/
theorem C5_witness :
    SetTexture (demoEnv (profileWith [property (ascii "textures") skinBase64]))
      (demoContext ⟨clientUrl, ascii "slim", 2, ascii "Gone"⟩) =
      ⟨[ascii "https://api.mojang.com/users/profiles/minecraft/Gone"], [],
        Response.status 404⟩ :=
  C5_account_failure_is_not_found _ _ ⟨clientUrl, ascii "slim", 2, ascii "Gone"⟩
    demoProfileId (demo_gates _ _) rfl
    (AccountFailure.lookup (GoError.other (ascii "404 Not Found")) rfl)

/-- C6: past the four gates and the account stage, at `skinImportLevel >= 1`, when
the profile lookup fails with an error that is, or wraps, a `YggdrasilError` of
status 204, the response is `404` and the store is not called. -/
theorem C6_no_content_is_not_found (env : Env) (c : Context)
    (request : SetTextureRequest) (profileId newUUID : UUID) (resultErr : GoError)
    (yggErr : YggdrasilError)
    (hg : Gates env c request profileId)
    (hlevel : 1 ≤ request.ForceMojangSkin)
    (hacct : accountStage env request = some newUUID)
    (hprofile :
      env.GetObject (profileUrl env (targetId profileId newUUID)) = Except.error resultErr)
    (hwraps : IsOrWraps yggErr resultErr)
    (hstatus : yggErr.Status = 204) :
    (SetTexture env c).response = Response.status 404 ∧ (SetTexture env c).store = [] := by
  have has : errorsAs resultErr = some yggErr := (errorsAs_eq_some_iff resultErr yggErr).mpr hwraps
  rw [SetTexture_profileStage hg hlevel hacct,
    profileStage_error env _ _ _ _ _ _ _ resultErr hprofile]
  simp only [has, hstatus, if_true, and_self]

/-- C6 at a level-1 request whose profile lookup fails with an error that wraps a
`YggdrasilError` of status 204. -/
theorem C6_witness :
    (SetTexture
      (demoEnv (Except.error
        (GoError.wrap (ascii "get profile") (GoError.ygg ⟨204, [], ascii "No Content"⟩))))
      (demoContext ⟨clientUrl, ascii "slim", 1, []⟩)).response = Response.status 404 ∧
    (SetTexture
      (demoEnv (Except.error
        (GoError.wrap (ascii "get profile") (GoError.ygg ⟨204, [], ascii "No Content"⟩))))
      (demoContext ⟨clientUrl, ascii "slim", 1, []⟩)).store = [] :=
  C6_no_content_is_not_found _ _ ⟨clientUrl, ascii "slim", 1, []⟩ demoProfileId uuid.Nil
    (GoError.wrap (ascii "get profile") (GoError.ygg ⟨204, [], ascii "No Content"⟩))
    ⟨204, [], ascii "No Content"⟩ (demo_gates _ _) (by decide) rfl rfl
    (IsOrWraps.wrap _ _ IsOrWraps.self) rfl

/-- C7: past the four gates and the account stage, at `skinImportLevel >= 1`, when
the profile lookup fails with an error that neither is nor wraps a `YggdrasilError`
of status 204, that error goes unchanged to `util.HandleError` and the store is not
called; the same error from the level-2 account lookup gives `404` instead. -/
theorem C7_other_profile_error_is_surfaced (env : Env) (c : Context)
    (request : SetTextureRequest) (profileId newUUID : UUID) (resultErr : GoError)
    (hg : Gates env c request profileId)
    (hlevel : 1 ≤ request.ForceMojangSkin)
    (hacct : accountStage env request = some newUUID)
    (hprofile :
      env.GetObject (profileUrl env (targetId profileId newUUID)) = Except.error resultErr)
    (hother : ∀ yggErr, IsOrWraps yggErr resultErr → yggErr.Status ≠ 204) :
    ((SetTexture env c).response = Response.handleError resultErr ∧
      (SetTexture env c).store = []) ∧
    ∀ (c2 : Context) (request2 : SetTextureRequest) (profileId2 : UUID),
      Gates env c2 request2 profileId2 → request2.ForceMojangSkin = 2 →
      env.GetObject (accountUrl request2.Username) = Except.error resultErr →
      (SetTexture env c2).response = Response.status 404 := by
  constructor
  · rw [SetTexture_profileStage hg hlevel hacct,
      profileStage_error env _ _ _ _ _ _ _ resultErr hprofile]
    cases has : errorsAs resultErr with
    | none => exact ⟨rfl, rfl⟩
    | some yggErr =>
      have hne := hother yggErr ((errorsAs_eq_some_iff resultErr yggErr).mp has)
      simp only [hne, if_false, and_self]
  · intro c2 request2 profileId2 hg2 hlevel2 herr
    rw [SetTexture_account_none hg2 hlevel2
      (accountStage_of_failure env request2 hlevel2 (AccountFailure.lookup resultErr herr))]

/-- C7 with the error `connection refused`: from the profile lookup of a level-1
request it reaches `util.HandleError`; from the account lookup of a level-2 request
for the user `Nobody` it becomes `404`. -/
theorem C7_witness :
    ((SetTexture (demoEnv (Except.error (GoError.other (ascii "connection refused"))))
      (demoContext ⟨clientUrl, ascii "slim", 1, []⟩)).response =
        Response.handleError (GoError.other (ascii "connection refused")) ∧
     (SetTexture (demoEnv (Except.error (GoError.other (ascii "connection refused"))))
      (demoContext ⟨clientUrl, ascii "slim", 1, []⟩)).store = []) ∧
    (SetTexture (demoEnv (Except.error (GoError.other (ascii "connection refused"))))
      (demoContext ⟨clientUrl, ascii "slim", 2, ascii "Nobody"⟩)).response =
        Response.status 404 :=
  have h := C7_other_profile_error_is_surfaced
    (demoEnv (Except.error (GoError.other (ascii "connection refused"))))
    (demoContext ⟨clientUrl, ascii "slim", 1, []⟩) ⟨clientUrl, ascii "slim", 1, []⟩
    demoProfileId uuid.Nil (GoError.other (ascii "connection refused")) (demo_gates _ _)
    (by decide) rfl rfl (fun _ hwraps => nomatch hwraps)
  ⟨h.1, h.2 (demoContext ⟨clientUrl, ascii "slim", 2, ascii "Nobody"⟩)
    ⟨clientUrl, ascii "slim", 2, ascii "Nobody"⟩ demoProfileId (demo_gates _ _) rfl rfl⟩

/-- C8: past the four gates and the account stage, at `skinImportLevel >= 1`, with a
successful profile lookup: when `properties` is missing, is not a list or is the
empty list, the error of line 139 goes to `util.HandleError` (the handler writes no
`404`) and the store is not called; when `properties` is a non-empty list the
handler does not end there: it calls the store, or it panics in the scan. -/
theorem C8_properties_missing_or_empty (env : Env) (c : Context)
    (request : SetTextureRequest) (profileId newUUID : UUID) (result : GoMap)
    (hg : Gates env c request profileId)
    (hlevel : 1 ≤ request.ForceMojangSkin)
    (hacct : accountStage env request = some newUUID)
    (hprofile : env.GetObject (profileUrl env (targetId profileId newUUID)) = Except.ok result) :
    (((∀ properties, GoMap.get result (ascii "properties") ≠ GoVal.arr properties) ∨
        GoMap.get result (ascii "properties") = GoVal.arr []) →
      (SetTexture env c).response = Response.handleError propertiesError ∧
      (SetTexture env c).response ≠ Response.status 404 ∧
      (SetTexture env c).store = []) ∧
    (∀ properties, GoMap.get result (ascii "properties") = GoVal.arr properties →
      properties ≠ [] →
      (SetTexture env c).store ≠ [] ∨ (SetTexture env c).response = Response.panicked) := by
  rw [SetTexture_profileStage hg hlevel hacct]
  constructor
  · intro hbad
    have hend : profileStage env
        (if request.ForceMojangSkin = 2 then [accountUrl request.Username] else [])
        (accessTokenOf c) profileId (c.Param (ascii "textureType")) (modelTypeOf env request)
        request newUUID =
        ⟨(if request.ForceMojangSkin = 2 then [accountUrl request.Username] else []) ++
          [profileUrl env (targetId profileId newUUID)], [],
          Response.handleError propertiesError⟩ := by
      unfold profileStage
      unfold targetId at hprofile
      simp only [hprofile, targetId]
      rcases hbad with hnone | hempty
      · cases hp : GoMap.get result (ascii "properties") with
        | arr properties => exact absurd hp (hnone properties)
        | _ => rfl
      · rw [hempty]
        rfl
    rw [hend]
    exact ⟨rfl, by simp, rfl⟩
  · intro properties hprops hne
    rw [profileStage_scan env _ _ _ _ _ _ _ result properties hprofile hprops hne]
    cases scanProperties env request.Url properties with
    | panicked => exact Or.inr rfl
    | done url =>
      left
      simp only [storeSetTexture_store]
      exact List.cons_ne_nil _ _

/-- C8 at three level-1 requests: a profile response without `properties`, one whose
`properties` is a string, and one whose `properties` is a one-entry list. -/
theorem C8_witness :
    ((SetTexture (demoEnv (Except.ok [(ascii "id", GoVal.str (ascii "1"))]))
        (demoContext ⟨clientUrl, ascii "slim", 1, []⟩)).response =
        Response.handleError propertiesError ∧
      (SetTexture (demoEnv (Except.ok [(ascii "id", GoVal.str (ascii "1"))]))
        (demoContext ⟨clientUrl, ascii "slim", 1, []⟩)).response ≠ Response.status 404 ∧
      (SetTexture (demoEnv (Except.ok [(ascii "id", GoVal.str (ascii "1"))]))
        (demoContext ⟨clientUrl, ascii "slim", 1, []⟩)).store = []) ∧
    ((SetTexture (demoEnv (profileWith []))
        (demoContext ⟨clientUrl, ascii "slim", 1, []⟩)).response =
        Response.handleError propertiesError ∧
      (SetTexture (demoEnv (profileWith []))
        (demoContext ⟨clientUrl, ascii "slim", 1, []⟩)).response ≠ Response.status 404 ∧
      (SetTexture (demoEnv (profileWith []))
        (demoContext ⟨clientUrl, ascii "slim", 1, []⟩)).store = []) ∧
    ((SetTexture (demoEnv (profileWith [GoVal.null]))
        (demoContext ⟨clientUrl, ascii "slim", 1, []⟩)).store ≠ [] ∨
      (SetTexture (demoEnv (profileWith [GoVal.null]))
        (demoContext ⟨clientUrl, ascii "slim", 1, []⟩)).response = Response.panicked) :=
  ⟨(C8_properties_missing_or_empty (demoEnv (Except.ok [(ascii "id", GoVal.str (ascii "1"))]))
      (demoContext ⟨clientUrl, ascii "slim", 1, []⟩) ⟨clientUrl, ascii "slim", 1, []⟩
      demoProfileId uuid.Nil [(ascii "id", GoVal.str (ascii "1"))] (demo_gates _ _)
      (by decide) rfl rfl).1
      (Or.inl (fun _ hp => nomatch (show GoVal.null = GoVal.arr _ from hp))),
    (C8_properties_missing_or_empty (demoEnv (profileWith []))
      (demoContext ⟨clientUrl, ascii "slim", 1, []⟩) ⟨clientUrl, ascii "slim", 1, []⟩
      demoProfileId uuid.Nil _ (demo_gates _ _) (by decide) rfl rfl).1 (Or.inr rfl),
    (C8_properties_missing_or_empty (demoEnv (profileWith [GoVal.null]))
      (demoContext ⟨clientUrl, ascii "slim", 1, []⟩) ⟨clientUrl, ascii "slim", 1, []⟩
      demoProfileId uuid.Nil _ (demo_gates _ _) (by decide) rfl rfl).2 [GoVal.null] rfl
      (List.cons_ne_nil _ _)⟩

/-- C9, counterexample: at a level-2 request for the user `Zero` the account lookup
succeeds and its id `00000000000000000000000000000000` parses, to `uuid.Nil`, yet
the profile lookup is made for the id of the path,
`11111111222233334444555555555555`, not for the resolved id. -/
theorem C9_nil_account_id_counterexample :
    accountStage (demoEnv (profileWith [property (ascii "textures") skinBase64]))
      ⟨clientUrl, ascii "slim", 2, ascii "Zero"⟩ = some uuid.Nil ∧
    (SetTexture (demoEnv (profileWith [property (ascii "textures") skinBase64]))
      (demoContext ⟨clientUrl, ascii "slim", 2, ascii "Zero"⟩)).lookups =
      [ascii "https://api.mojang.com/users/profiles/minecraft/Zero",
        ascii "https://sessionserver.mojang.com/session/minecraft/profile/11111111222233334444555555555555"] ∧
    profileUrl (demoEnv (profileWith [property (ascii "textures") skinBase64])) uuid.Nil =
      ascii "https://sessionserver.mojang.com/session/minecraft/profile/00000000000000000000000000000000" ∧
    (SetTexture (demoEnv (profileWith [property (ascii "textures") skinBase64]))
      (demoContext ⟨clientUrl, ascii "slim", 2, ascii "Zero"⟩)).lookups ≠
      [accountUrl (ascii "Zero"),
        profileUrl (demoEnv (profileWith [property (ascii "textures") skinBase64])) uuid.Nil] := by
  refine ⟨rfl, rfl, rfl, ?_⟩
  decide

/-- C9, amended: past the four gates, at `skinImportLevel >= 1`, the handler makes
the profile lookup as its last lookup.  At level 2, after an account lookup that
resolved the id `newUUID`, the lookups are the account lookup and then the profile
lookup, for `newUUID` when it is not `uuid.Nil` and for the id of the path when it
is; at any other level the only lookup is the profile lookup for the id of the path.
The id is rendered by `util.UnsignedString`. -/
theorem C9_profile_lookup_target (env : Env) (c : Context)
    (request : SetTextureRequest) (profileId newUUID : UUID)
    (hg : Gates env c request profileId)
    (hlevel : 1 ≤ request.ForceMojangSkin)
    (hacct : accountStage env request = some newUUID) :
    (request.ForceMojangSkin = 2 → newUUID ≠ uuid.Nil →
      (SetTexture env c).lookups =
        [accountUrl request.Username,
          ascii "https://sessionserver.mojang.com/session/minecraft/profile/" ++
            env.UnsignedString newUUID]) ∧
    (request.ForceMojangSkin = 2 → newUUID = uuid.Nil →
      (SetTexture env c).lookups =
        [accountUrl request.Username,
          ascii "https://sessionserver.mojang.com/session/minecraft/profile/" ++
            env.UnsignedString profileId]) ∧
    (request.ForceMojangSkin ≠ 2 →
      (SetTexture env c).lookups =
        [ascii "https://sessionserver.mojang.com/session/minecraft/profile/" ++
          env.UnsignedString profileId]) := by
  rw [SetTexture_profileStage hg hlevel hacct, profileStage_lookups]
  refine ⟨fun h2 hne => ?_, fun h2 hnil => ?_, fun h2 => ?_⟩
  · simp only [h2, if_true, targetId, hne, if_false, profileUrl, List.singleton_append]
  · simp only [h2, if_true, targetId, hnil, profileUrl, List.singleton_append]
  · have hnil : newUUID = uuid.Nil := by
      unfold accountStage at hacct
      rw [if_neg h2] at hacct
      exact (Option.some.inj hacct).symm
    simp only [h2, if_false, targetId, hnil, if_true, profileUrl, List.nil_append]

/-- C9, amended, at three requests: level 2 for `Notch` (the profile of `Notch` is
looked up), level 2 for `Zero` (the profile of the path id), level 1 (the profile of
the path id). -/
theorem C9_witness :
    (SetTexture (demoEnv (profileWith [property (ascii "textures") skinBase64]))
      (demoContext ⟨clientUrl, ascii "slim", 2, ascii "Notch"⟩)).lookups =
      [ascii "https://api.mojang.com/users/profiles/minecraft/Notch",
        ascii "https://sessionserver.mojang.com/session/minecraft/profile/069a79f444e94726a5befca90e38aaf5"] ∧
    (SetTexture (demoEnv (profileWith [property (ascii "textures") skinBase64]))
      (demoContext ⟨clientUrl, ascii "slim", 2, ascii "Zero"⟩)).lookups =
      [ascii "https://api.mojang.com/users/profiles/minecraft/Zero",
        ascii "https://sessionserver.mojang.com/session/minecraft/profile/11111111222233334444555555555555"] ∧
    (SetTexture (demoEnv (profileWith [property (ascii "textures") skinBase64]))
      (demoContext ⟨clientUrl, ascii "slim", 1, []⟩)).lookups =
      [ascii "https://sessionserver.mojang.com/session/minecraft/profile/11111111222233334444555555555555"] :=
  ⟨(C9_profile_lookup_target (demoEnv (profileWith [property (ascii "textures") skinBase64]))
      (demoContext ⟨clientUrl, ascii "slim", 2, ascii "Notch"⟩)
      ⟨clientUrl, ascii "slim", 2, ascii "Notch"⟩ demoProfileId notchId (demo_gates _ _)
      (by decide) rfl).1 rfl (by decide),
    (C9_profile_lookup_target (demoEnv (profileWith [property (ascii "textures") skinBase64]))
      (demoContext ⟨clientUrl, ascii "slim", 2, ascii "Zero"⟩)
      ⟨clientUrl, ascii "slim", 2, ascii "Zero"⟩ demoProfileId uuid.Nil (demo_gates _ _)
      (by decide) rfl).2.1 rfl rfl,
    (C9_profile_lookup_target (demoEnv (profileWith [property (ascii "textures") skinBase64]))
      (demoContext ⟨clientUrl, ascii "slim", 1, []⟩)
      ⟨clientUrl, ascii "slim", 1, []⟩ demoProfileId uuid.Nil (demo_gates _ _)
      (by decide) rfl).2.2 (by decide)⟩

/-- C10, counterexample: at a request with no `Authorization` header whose body
does not bind, `SetTexture` checks the body first and answers `403 Forbidden` with
the text of the binding error, not `401 Unauthorized`. -/
theorem C10_unbound_body_counterexample :
    ((contextWith [] (Except.error (ascii "EOF"))).GetHeader (ascii "Authorization")).length < 8 ∧
    SetTexture (demoEnv (profileWith [])) (contextWith [] (Except.error (ascii "EOF"))) =
      ⟨[], [], Response.abortWithStatusJSON 403
        (ErrorBody.NewForbiddenOperationError (ascii "EOF"))⟩ ∧
    SetTexture (demoEnv (profileWith [])) (contextWith [] (Except.error (ascii "EOF"))) ≠
      invalidToken (demoEnv (profileWith [])) := by
  refine ⟨by decide, rfl, ?_⟩
  decide

/-- C10, amended: for every request whose `Authorization` header is absent or has
fewer than eight bytes, `UploadTexture` and `DeleteTexture` answer
`401 Unauthorized` with the invalid-token error, whatever else the request holds;
`SetTexture` does so when the body binds, and answers `403 Forbidden` with the
binding error when it does not; in every case no lookup is made and the store is not
called. -/
theorem C10_short_token_is_unauthorized (env : Env) (c : Context)
    (hshort : (c.GetHeader (ascii "Authorization")).length < 8) :
    UploadTexture env c = invalidToken env ∧
    DeleteTexture env c = invalidToken env ∧
    (∀ request, c.ShouldBindJSON ⟨[], env.STEVE, 0, []⟩ = Except.ok request →
      SetTexture env c = invalidToken env) ∧
    (∀ err, c.ShouldBindJSON ⟨[], env.STEVE, 0, []⟩ = Except.error err →
      SetTexture env c =
        ⟨[], [], Response.abortWithStatusJSON StatusForbidden
          (ErrorBody.NewForbiddenOperationError err)⟩) ∧
    (SetTexture env c).store = [] := by
  refine ⟨?_, ?_, ?_, ?_, ?_⟩
  · unfold UploadTexture invalidToken
    simp only [hshort, if_true]
  · unfold DeleteTexture invalidToken
    simp only [hshort, if_true]
  · intro request hbind
    unfold SetTexture invalidToken
    simp only [hbind, hshort, if_true]
  · intro err hbind
    unfold SetTexture
    simp only [hbind]
  · unfold SetTexture
    cases hbind : c.ShouldBindJSON ⟨[], env.STEVE, 0, []⟩ with
    | error err => rfl
    | ok request => simp only [hshort, if_true]

/-- C10, amended, at the six-byte header `Bearer`: with a body that binds the three
handlers answer 401 with `Invalid token.`; with a body that does not bind,
`SetTexture` answers 403 with the binding error. -/
theorem C10_witness :
    (UploadTexture (demoEnv (profileWith []))
        (contextWith (ascii "Bearer") (Except.ok ⟨clientUrl, ascii "slim", 0, []⟩)) =
        ⟨[], [], Response.abortWithStatusJSON 401
          (ErrorBody.NewForbiddenOperationError (ascii "Invalid token."))⟩ ∧
      DeleteTexture (demoEnv (profileWith []))
        (contextWith (ascii "Bearer") (Except.ok ⟨clientUrl, ascii "slim", 0, []⟩)) =
        ⟨[], [], Response.abortWithStatusJSON 401
          (ErrorBody.NewForbiddenOperationError (ascii "Invalid token."))⟩ ∧
      SetTexture (demoEnv (profileWith []))
        (contextWith (ascii "Bearer") (Except.ok ⟨clientUrl, ascii "slim", 0, []⟩)) =
        ⟨[], [], Response.abortWithStatusJSON 401
          (ErrorBody.NewForbiddenOperationError (ascii "Invalid token."))⟩) ∧
    SetTexture (demoEnv (profileWith []))
        (contextWith (ascii "Bearer") (Except.error (ascii "EOF"))) =
      ⟨[], [], Response.abortWithStatusJSON 403
        (ErrorBody.NewForbiddenOperationError (ascii "EOF"))⟩ :=
  have hok := C10_short_token_is_unauthorized (demoEnv (profileWith []))
    (contextWith (ascii "Bearer") (Except.ok ⟨clientUrl, ascii "slim", 0, []⟩))
    (by decide)
  have herr := C10_short_token_is_unauthorized (demoEnv (profileWith []))
    (contextWith (ascii "Bearer") (Except.error (ascii "EOF"))) (by decide)
  ⟨⟨hok.1, hok.2.1, hok.2.2.1 _ rfl⟩, herr.2.2.2.1 _ rfl⟩

/-! ## Lemmas on the exits of the handlers -/

/-- The profile stage on a successful lookup whose `properties` is missing, is not a
list or is the empty list: the error of line 139 goes to `util.HandleError`. -/
theorem profileStage_properties_error (env : Env) (lookups : List GoString)
    (accessToken : GoString) (profileId : UUID) (textureType modelType : GoString)
    (request : SetTextureRequest) (newUUID : UUID) (result : GoMap)
    (hprofile : env.GetObject (profileUrl env (targetId profileId newUUID)) = Except.ok result)
    (hbad : (∀ properties, GoMap.get result (ascii "properties") ≠ GoVal.arr properties) ∨
      GoMap.get result (ascii "properties") = GoVal.arr []) :
    profileStage env lookups accessToken profileId textureType modelType request newUUID =
      ⟨lookups ++ [profileUrl env (targetId profileId newUUID)], [],
        Response.handleError propertiesError⟩ := by
  unfold profileStage
  unfold targetId at hprofile
  simp only [hprofile, targetId]
  rcases hbad with hnone | hempty
  · cases hp : GoMap.get result (ascii "properties") with
    | arr properties => exact absurd hp (hnone properties)
    | _ => rfl
  · rw [hempty]
    rfl

/-- The two ways the profile stage ends: without a call on the store, with `404`, a
panic or `util.HandleError`; or with the store call, after a successful profile
lookup and a scan of a non-empty list that ended at `url`. -/
theorem profileStage_cases (env : Env) (lookups : List GoString) (accessToken : GoString)
    (profileId : UUID) (textureType modelType : GoString) (request : SetTextureRequest)
    (newUUID : UUID) :
    ((profileStage env lookups accessToken profileId textureType modelType request
          newUUID).store = [] ∧
      ((profileStage env lookups accessToken profileId textureType modelType request
          newUUID).response = Response.status 404 ∨
        (profileStage env lookups accessToken profileId textureType modelType request
          newUUID).response = Response.panicked ∨
        ∃ err, (profileStage env lookups accessToken profileId textureType modelType request
          newUUID).response = Response.handleError err)) ∨
    ∃ url result properties,
      env.GetObject (profileUrl env (targetId profileId newUUID)) = Except.ok result ∧
      GoMap.get result (ascii "properties") = GoVal.arr properties ∧
      properties ≠ [] ∧
      scanProperties env request.Url properties = Scan.done url ∧
      profileStage env lookups accessToken profileId textureType modelType request newUUID =
        storeSetTexture env (lookups ++ [profileUrl env (targetId profileId newUUID)])
          accessToken profileId url textureType modelType := by
  cases hprofile : env.GetObject (profileUrl env (targetId profileId newUUID)) with
  | error resultErr =>
    left
    rw [profileStage_error env _ _ _ _ _ _ _ resultErr hprofile]
    refine ⟨rfl, ?_⟩
    cases errorsAs resultErr with
    | none => exact Or.inr (Or.inr ⟨resultErr, rfl⟩)
    | some yggErr =>
      by_cases hstatus : yggErr.Status = 204
      · left
        simp only [hstatus, if_true]
      · right
        right
        exact ⟨resultErr, by simp only [hstatus, if_false]⟩
  | ok result =>
    by_cases hlist : ∃ properties,
        GoMap.get result (ascii "properties") = GoVal.arr properties ∧ properties ≠ []
    · obtain ⟨properties, hprops, hne⟩ := hlist
      rw [profileStage_scan env _ _ _ _ _ _ _ result properties hprofile hprops hne]
      cases hscan : scanProperties env request.Url properties with
      | panicked => exact Or.inl ⟨rfl, Or.inr (Or.inl rfl)⟩
      | done url => exact Or.inr ⟨url, result, properties, rfl, hprops, hne, hscan, rfl⟩
    · left
      have hbad : (∀ properties, GoMap.get result (ascii "properties") ≠ GoVal.arr properties) ∨
          GoMap.get result (ascii "properties") = GoVal.arr [] := by
        by_cases hnil : GoMap.get result (ascii "properties") = GoVal.arr []
        · exact Or.inr hnil
        · left
          intro properties hprops
          by_cases hempty : properties = []
          · exact hnil (hempty ▸ hprops)
          · exact hlist ⟨properties, hprops, hempty⟩
      rw [profileStage_properties_error env _ _ _ _ _ _ _ result hprofile hbad]
      exact ⟨rfl, Or.inr (Or.inr ⟨propertiesError, rfl⟩)⟩

/-- The two ways `SetTexture` ends once the gates are passed: without a call on the
store, with `404`, a panic or `util.HandleError`; or with the store call, after a
resolution that succeeded with the url handed to the store. -/
theorem resolveAndStore_cases (env : Env) (accessToken : GoString) (profileId : UUID)
    (textureType : GoString) (request : SetTextureRequest) :
    ((resolveAndStore env accessToken profileId textureType request).store = [] ∧
      ((resolveAndStore env accessToken profileId textureType request).response =
          Response.status 404 ∨
        (resolveAndStore env accessToken profileId textureType request).response =
          Response.panicked ∨
        ∃ err, (resolveAndStore env accessToken profileId textureType request).response =
          Response.handleError err)) ∨
    ∃ url lookups, Resolved env request profileId url ∧
      resolveAndStore env accessToken profileId textureType request =
        storeSetTexture env lookups accessToken profileId url textureType
          (if request.Model = [] then env.STEVE else request.Model) := by
  unfold resolveAndStore
  cases hacct : accountStage env request with
  | none => exact Or.inl ⟨rfl, Or.inl rfl⟩
  | some newUUID =>
    by_cases hpos : request.ForceMojangSkin > 0
    · simp only [hpos, if_true]
      rcases profileStage_cases env
        (if request.ForceMojangSkin = 2 then [accountUrl request.Username] else [])
        accessToken profileId textureType
        (if request.Model = [] then env.STEVE else request.Model) request newUUID with
        hleft | ⟨url, result, properties, hprofile, hprops, hne, hscan, heq⟩
      · exact Or.inl hleft
      · right
        have hres : Resolved env request profileId url :=
          Or.inr ⟨by omega, newUUID, result, properties, hacct, hprofile, hprops, hne, hscan⟩
        exact ⟨url, _, hres, heq⟩
    · simp only [hpos, if_false]
      right
      have hres : Resolved env request profileId request.Url := Or.inl ⟨by omega, rfl⟩
      exact ⟨request.Url, _, hres, rfl⟩

/-- The two ways `SetTexture` ends: without a call on the store, with a JSON error
written by the handler, `404`, a panic or `util.HandleError`; or with the store call,
after the four gates and a resolution that succeeded with the url handed to the
store. -/
theorem SetTexture_cases (env : Env) (c : Context) :
    ((SetTexture env c).store = [] ∧
      ((∃ code body, (SetTexture env c).response = Response.abortWithStatusJSON code body) ∨
        (SetTexture env c).response = Response.status 404 ∨
        (SetTexture env c).response = Response.panicked ∨
        ∃ err, (SetTexture env c).response = Response.handleError err)) ∨
    ∃ request profileId url lookups,
      Gates env c request profileId ∧ Resolved env request profileId url ∧
      SetTexture env c =
        storeSetTexture env lookups (accessTokenOf c) profileId url
          (c.Param (ascii "textureType")) (modelTypeOf env request) := by
  cases hbind : c.ShouldBindJSON ⟨[], env.STEVE, 0, []⟩ with
  | error err =>
    left
    have h : SetTexture env c = ⟨[], [], Response.abortWithStatusJSON StatusForbidden
        (ErrorBody.NewForbiddenOperationError err)⟩ := by
      unfold SetTexture
      simp only [hbind]
    rw [h]
    exact ⟨rfl, Or.inl ⟨_, _, rfl⟩⟩
  | ok request =>
    by_cases htok : (c.GetHeader (ascii "Authorization")).length < 8
    · left
      have h : SetTexture env c = invalidToken env := by
        unfold SetTexture invalidToken
        simp only [hbind, htok, if_true]
      rw [h]
      exact ⟨rfl, Or.inl ⟨_, _, rfl⟩⟩
    · cases huuid : env.ToUUID (c.Param (ascii "uuid")) with
      | error err =>
        left
        have h : SetTexture env c = ⟨[], [], Response.abortWithStatusJSON StatusBadRequest
            (ErrorBody.NewIllegalArgumentError err)⟩ := by
          unfold SetTexture
          simp only [hbind, htok, if_false, huuid]
        rw [h]
        exact ⟨rfl, Or.inl ⟨_, _, rfl⟩⟩
      | ok profileId =>
        by_cases htype : c.Param (ascii "textureType") ≠ ascii "skin" ∧
            c.Param (ascii "textureType") ≠ ascii "cape"
        · left
          have h : SetTexture env c = invalidTextureType := by
            unfold SetTexture invalidTextureType
            simp only [hbind, htok, if_false, huuid]
            rw [if_pos htype]
          rw [h]
          exact ⟨rfl, Or.inl ⟨_, _, rfl⟩⟩
        · have hg : Gates env c request profileId :=
            ⟨hbind, Nat.le_of_not_lt htok, huuid, by
              by_cases hskin : c.Param (ascii "textureType") = ascii "skin"
              · exact Or.inl hskin
              · right
                by_contra hcape
                exact htype ⟨hskin, hcape⟩⟩
          rw [SetTexture_of_gates hg]
          rcases resolveAndStore_cases env (accessTokenOf c) profileId
            (c.Param (ascii "textureType")) request with
            ⟨hstore, hresp⟩ | ⟨url, lookups, hres, heq⟩
          · exact Or.inl ⟨hstore, Or.inr hresp⟩
          · exact Or.inr ⟨request, profileId, url, lookups, hg, hres, heq⟩

/-- The gates of a request determine the bound request and the profile id. -/
theorem Gates_unique {env : Env} {c : Context} {request request2 : SetTextureRequest}
    {profileId profileId2 : UUID} (hg : Gates env c request profileId)
    (hg2 : Gates env c request2 profileId2) : request = request2 ∧ profileId = profileId2 :=
  ⟨Except.ok.inj (hg.body.symm.trans hg2.body), Except.ok.inj (hg.uuid.symm.trans hg2.uuid)⟩

/-- The scan ends at the url it started with or at the skin url of an entry of the
list. -/
theorem scanProperties_done (env : Env) (url u : GoString) (properties : List GoVal)
    (h : scanProperties env url properties = Scan.done u) :
    u = url ∨ ∃ entry ∈ properties, HasSkinUrl env entry u := by
  induction properties with
  | nil =>
    left
    exact (Scan.done.inj h).symm
  | cons p rest ih =>
    have hrest : scanProperties env url rest = Scan.done u →
        u = url ∨ ∃ entry ∈ p :: rest, HasSkinUrl env entry u := fun hr =>
      (ih hr).imp id (fun ⟨entry, hmem, hskin⟩ => ⟨entry, List.mem_cons_of_mem p hmem, hskin⟩)
    cases p with
    | obj propMap =>
      unfold scanProperties at h
      by_cases hname : (GoMap.get propMap (ascii "name")).eqString (ascii "textures") = true
      · simp only [hname, if_true] at h
        cases hvalue : GoMap.get propMap (ascii "value") with
        | str textureValue =>
          simp only [hvalue] at h
          cases hdec : env.DecodeString textureValue with
          | none =>
            simp only [hdec] at h
            exact hrest h
          | some decodedValue =>
            simp only [hdec] at h
            cases hjson : env.Unmarshal decodedValue with
            | none =>
              simp only [hjson] at h
              exact hrest h
            | some textureData =>
              simp only [hjson] at h
              cases htex : GoMap.get textureData (ascii "textures") with
              | obj textures =>
                simp only [htex] at h
                cases hskin : GoMap.get textures (ascii "SKIN") with
                | obj skinData =>
                  simp only [hskin] at h
                  cases hurl : GoMap.get skinData (ascii "url") with
                  | str skinUrl =>
                    simp only [hurl] at h
                    right
                    have hu : skinUrl = u := Scan.done.inj h
                    exact ⟨GoVal.obj propMap, List.mem_cons_self _ _,
                      propMap, textureValue, decodedValue, textureData, textures, skinData,
                      rfl, hname, hvalue, hdec, hjson, htex, hskin, hu ▸ hurl⟩
                  | _ =>
                    simp only [hurl] at h
                    exact hrest h
                | _ =>
                  simp only [hskin] at h
                  exact hrest h
              | _ =>
                simp only [htex] at h
                cases h
        | _ =>
          simp only [hvalue] at h
          exact hrest h
      · simp only [hname] at h
        exact hrest h
    | _ =>
      unfold scanProperties at h
      exact hrest h


/-- The response after the store call is `util.HandleError` or `204`, never a
response the handler writes for a failure of its own. -/
theorem storeSetTexture_response_cases (env : Env) (lookups : List GoString)
    (accessToken : GoString) (profileId : UUID) (url textureType modelType : GoString) :
    (storeSetTexture env lookups accessToken profileId url textureType modelType).response =
        Response.status 204 ∨
      ∃ err,
        (storeSetTexture env lookups accessToken profileId url textureType modelType).response =
          Response.handleError err := by
  unfold storeSetTexture
  cases env.textureService.SetTexture accessToken profileId url textureType modelType with
  | none => exact Or.inl rfl
  | some err => exact Or.inr ⟨err, rfl⟩

/-- Binding another level leaves the gates as they were. -/
theorem Gates_withLevel {env : Env} {c : Context} {request : SetTextureRequest}
    {profileId : UUID} (level : Int) (hg : Gates env c request profileId) :
    Gates env (withLevel c level) { request with ForceMojangSkin := level } profileId := by
  refine ⟨?_, hg.token, hg.uuid, hg.textureType⟩
  show (match c.ShouldBindJSON ⟨[], env.STEVE, 0, []⟩ with
    | Except.ok request => Except.ok { request with ForceMojangSkin := level }
    | Except.error err => Except.error err) = _
  rw [hg.body]

/-- Past the token, profile-id and texture-type gates, `UploadTexture` is the
handling of the form file. -/
theorem UploadTexture_of_gates {env : Env} {c : Context} {profileId : UUID}
    (hg : PathGates env c profileId)
    (htype : c.Param (ascii "textureType") = ascii "skin" ∨
      c.Param (ascii "textureType") = ascii "cape") :
    UploadTexture env c =
      uploadFile env c (accessTokenOf c) profileId (c.Param (ascii "textureType")) := by
  have htok : ¬ (c.GetHeader (ascii "Authorization")).length < 8 := Nat.not_lt.mpr hg.token
  have hnot : ¬ (c.Param (ascii "textureType") ≠ ascii "skin" ∧
      c.Param (ascii "textureType") ≠ ascii "cape") := by
    rcases htype with h | h <;> simp [h]
  unfold UploadTexture uploadFile
  simp only [hg.uuid, htok, hnot, if_false, accessTokenOf]

/-- Past the token, profile-id and texture-type gates, `DeleteTexture` is the call on
the store. -/
theorem DeleteTexture_of_gates {env : Env} {c : Context} {profileId : UUID}
    (hg : PathGates env c profileId)
    (htype : c.Param (ascii "textureType") = ascii "skin" ∨
      c.Param (ascii "textureType") = ascii "cape") :
    DeleteTexture env c =
      storeDeleteTexture env (accessTokenOf c) profileId (c.Param (ascii "textureType")) := by
  have htok : ¬ (c.GetHeader (ascii "Authorization")).length < 8 := Nat.not_lt.mpr hg.token
  have hnot : ¬ (c.Param (ascii "textureType") ≠ ascii "skin" ∧
      c.Param (ascii "textureType") ≠ ascii "cape") := by
    rcases htype with h | h <;> simp [h]
  unfold DeleteTexture storeDeleteTexture
  simp only [hg.uuid, htok, hnot, if_false, accessTokenOf]

/-- With an invalid texture type, past the token and profile-id gates,
`UploadTexture` and `DeleteTexture` answer with the error of the texture-type gate. -/
theorem path_handlers_invalid_type {env : Env} {c : Context} {profileId : UUID}
    (hg : PathGates env c profileId)
    (htype : c.Param (ascii "textureType") ≠ ascii "skin" ∧
      c.Param (ascii "textureType") ≠ ascii "cape") :
    UploadTexture env c = invalidTextureType ∧ DeleteTexture env c = invalidTextureType := by
  have htok : ¬ (c.GetHeader (ascii "Authorization")).length < 8 := Nat.not_lt.mpr hg.token
  constructor
  · unfold UploadTexture invalidTextureType
    simp only [hg.uuid, htok, if_false]
    rw [if_pos htype]
  · unfold DeleteTexture invalidTextureType
    simp only [hg.uuid, htok, if_false]
    rw [if_pos htype]

/-- Without a form file the handler answers `400` with the text of the error. -/
theorem uploadFile_no_file (env : Env) (c : Context) (accessToken : GoString)
    (profileId : UUID) (textureType err : GoString)
    (hfile : c.FormFile (ascii "file") = Except.error err) :
    uploadFile env c accessToken profileId textureType =
      ⟨[], [], Response.abortWithStatusJSON StatusBadRequest
        (ErrorBody.NewIllegalArgumentError err)⟩ := by
  unfold uploadFile
  simp only [hfile]

/-- A form file of more than `2 ^ 20` bytes is answered `400`, file too large. -/
theorem uploadFile_too_large (env : Env) (c : Context) (accessToken : GoString)
    (profileId : UUID) (textureType : GoString) (file : FileHeader)
    (hfile : c.FormFile (ascii "file") = Except.ok file) (hsize : file.Size > 2 ^ 20) :
    uploadFile env c accessToken profileId textureType = fileTooLarge := by
  unfold uploadFile fileTooLarge
  simp only [hfile]
  rw [if_pos hsize]

/-- A form file within the size limit that does not open is answered `500`. -/
theorem uploadFile_open_error (env : Env) (c : Context) (accessToken : GoString)
    (profileId : UUID) (textureType : GoString) (file : FileHeader) (err : GoError)
    (hfile : c.FormFile (ascii "file") = Except.ok file) (hsize : ¬ file.Size > 2 ^ 20)
    (hopen : file.Open = Except.error err) :
    uploadFile env c accessToken profileId textureType =
      ⟨[], [], Response.abortWithStatusJSON StatusInternalServerError
        (ErrorBody.literal ⟨0, ascii "Internal Server Error", ascii "Can not open file."⟩)⟩ := by
  unfold uploadFile
  simp only [hfile]
  rw [if_neg hsize]
  simp only [hopen]

/-- A form file within the size limit that opens is handed to the store, with the
model the form field decides, and the store decides the response. -/
theorem uploadFile_store (env : Env) (c : Context) (accessToken : GoString)
    (profileId : UUID) (textureType : GoString) (file : FileHeader) (fileReader : GoString)
    (hfile : c.FormFile (ascii "file") = Except.ok file) (hsize : ¬ file.Size > 2 ^ 20)
    (hopen : file.Open = Except.ok fileReader) :
    (uploadFile env c accessToken profileId textureType).store =
      [StoreCall.UploadTexture accessToken profileId fileReader textureType
        (if c.PostForm (ascii "model") = ascii "ALEX" then env.ALEX else env.STEVE)] ∧
    ((uploadFile env c accessToken profileId textureType).response = Response.status 204 ∨
      ∃ err, (uploadFile env c accessToken profileId textureType).response =
        Response.handleError err) := by
  unfold uploadFile
  simp only [hfile]
  rw [if_neg hsize]
  simp only [hopen]
  cases env.textureService.UploadTexture accessToken profileId fileReader textureType
    (if c.PostForm (ascii "model") = ascii "ALEX" then env.ALEX else env.STEVE) with
  | none => exact ⟨rfl, Or.inl rfl⟩
  | some err => exact ⟨rfl, Or.inr ⟨err, rfl⟩⟩

/-- The two ways the handling of the form file ends: with a JSON error and no call on
the store, or with one call on the store and the response that call decides. -/
theorem uploadFile_cases (env : Env) (c : Context) (accessToken : GoString)
    (profileId : UUID) (textureType : GoString) :
    ((uploadFile env c accessToken profileId textureType).store = [] ∧
      ∃ code body, (uploadFile env c accessToken profileId textureType).response =
        Response.abortWithStatusJSON code body) ∨
    ((∃ call, (uploadFile env c accessToken profileId textureType).store = [call]) ∧
      ((uploadFile env c accessToken profileId textureType).response = Response.status 204 ∨
        ∃ err, (uploadFile env c accessToken profileId textureType).response =
          Response.handleError err)) := by
  cases hfile : c.FormFile (ascii "file") with
  | error err =>
    rw [uploadFile_no_file env c _ _ _ err hfile]
    exact Or.inl ⟨rfl, _, _, rfl⟩
  | ok file =>
    by_cases hsize : file.Size > 2 ^ 20
    · rw [uploadFile_too_large env c _ _ _ file hfile hsize]
      exact Or.inl ⟨rfl, _, _, rfl⟩
    · cases hopen : file.Open with
      | error err =>
        rw [uploadFile_open_error env c _ _ _ file err hfile hsize hopen]
        exact Or.inl ⟨rfl, _, _, rfl⟩
      | ok fileReader =>
        have h := uploadFile_store env c accessToken profileId textureType file fileReader
          hfile hsize hopen
        exact Or.inr ⟨⟨_, h.1⟩, h.2⟩

/-- The two ways `UploadTexture` ends: with a JSON error and no call on the store, or
with one call on the store and the response that call decides. -/
theorem UploadTexture_cases (env : Env) (c : Context) :
    ((UploadTexture env c).store = [] ∧
      ∃ code body, (UploadTexture env c).response = Response.abortWithStatusJSON code body) ∨
    ((∃ call, (UploadTexture env c).store = [call]) ∧
      ((UploadTexture env c).response = Response.status 204 ∨
        ∃ err, (UploadTexture env c).response = Response.handleError err)) := by
  by_cases htok : (c.GetHeader (ascii "Authorization")).length < 8
  · left
    have h : UploadTexture env c = invalidToken env := by
      unfold UploadTexture invalidToken
      simp only [htok, if_true]
    rw [h]
    exact ⟨rfl, _, _, rfl⟩
  · cases huuid : env.ToUUID (c.Param (ascii "uuid")) with
    | error err =>
      left
      have h : UploadTexture env c = ⟨[], [], Response.abortWithStatusJSON StatusBadRequest
          (ErrorBody.NewIllegalArgumentError err)⟩ := by
        unfold UploadTexture
        simp only [htok, if_false, huuid]
      rw [h]
      exact ⟨rfl, _, _, rfl⟩
    | ok profileId =>
      have hg : PathGates env c profileId := ⟨Nat.le_of_not_lt htok, huuid⟩
      by_cases htype : c.Param (ascii "textureType") ≠ ascii "skin" ∧
          c.Param (ascii "textureType") ≠ ascii "cape"
      · left
        rw [(path_handlers_invalid_type hg htype).1]
        exact ⟨rfl, _, _, rfl⟩
      · have hvalid : c.Param (ascii "textureType") = ascii "skin" ∨
            c.Param (ascii "textureType") = ascii "cape" := by
          by_cases hskin : c.Param (ascii "textureType") = ascii "skin"
          · exact Or.inl hskin
          · right
            by_contra hcape
            exact htype ⟨hskin, hcape⟩
        rw [UploadTexture_of_gates hg hvalid]
        exact uploadFile_cases env c _ profileId _

/-- The two ways `DeleteTexture` ends: with a JSON error and no call on the store, or
with one call on the store and the response that call decides. -/
theorem DeleteTexture_cases (env : Env) (c : Context) :
    ((DeleteTexture env c).store = [] ∧
      ∃ code body, (DeleteTexture env c).response = Response.abortWithStatusJSON code body) ∨
    ((∃ call, (DeleteTexture env c).store = [call]) ∧
      ((DeleteTexture env c).response = Response.status 204 ∨
        ∃ err, (DeleteTexture env c).response = Response.handleError err)) := by
  by_cases htok : (c.GetHeader (ascii "Authorization")).length < 8
  · left
    have h : DeleteTexture env c = invalidToken env := by
      unfold DeleteTexture invalidToken
      simp only [htok, if_true]
    rw [h]
    exact ⟨rfl, _, _, rfl⟩
  · cases huuid : env.ToUUID (c.Param (ascii "uuid")) with
    | error err =>
      left
      have h : DeleteTexture env c = ⟨[], [], Response.abortWithStatusJSON StatusBadRequest
          (ErrorBody.NewIllegalArgumentError err)⟩ := by
        unfold DeleteTexture
        simp only [htok, if_false, huuid]
      rw [h]
      exact ⟨rfl, _, _, rfl⟩
    | ok profileId =>
      have hg : PathGates env c profileId := ⟨Nat.le_of_not_lt htok, huuid⟩
      by_cases htype : c.Param (ascii "textureType") ≠ ascii "skin" ∧
          c.Param (ascii "textureType") ≠ ascii "cape"
      · left
        rw [(path_handlers_invalid_type hg htype).2]
        exact ⟨rfl, _, _, rfl⟩
      · have hvalid : c.Param (ascii "textureType") = ascii "skin" ∨
            c.Param (ascii "textureType") = ascii "cape" := by
          by_cases hskin : c.Param (ascii "textureType") = ascii "skin"
          · exact Or.inl hskin
          · right
            by_contra hcape
            exact htype ⟨hskin, hcape⟩
        rw [DeleteTexture_of_gates hg hvalid]
        right
        unfold storeDeleteTexture
        cases env.textureService.DeleteTexture (accessTokenOf c) profileId
          (c.Param (ascii "textureType")) with
        | none => exact ⟨⟨_, rfl⟩, Or.inl rfl⟩
        | some err => exact ⟨⟨_, rfl⟩, Or.inr ⟨err, rfl⟩⟩

/-- Two requests with the same header and path whose bodies bind alike, to requests
that the resolution treats alike, get the same result from `SetTexture`. -/
theorem SetTexture_congr (env : Env) (c1 c2 : Context)
    (hheader : c2.GetHeader = c1.GetHeader) (hparam : c2.Param = c1.Param)
    (herr : ∀ err, c1.ShouldBindJSON ⟨[], env.STEVE, 0, []⟩ = Except.error err →
      c2.ShouldBindJSON ⟨[], env.STEVE, 0, []⟩ = Except.error err)
    (hok : ∀ request1, c1.ShouldBindJSON ⟨[], env.STEVE, 0, []⟩ = Except.ok request1 →
      ∃ request2, c2.ShouldBindJSON ⟨[], env.STEVE, 0, []⟩ = Except.ok request2 ∧
        ∀ accessToken profileId textureType,
          resolveAndStore env accessToken profileId textureType request1 =
            resolveAndStore env accessToken profileId textureType request2) :
    SetTexture env c1 = SetTexture env c2 := by
  unfold SetTexture
  rw [hheader, hparam]
  cases hbind : c1.ShouldBindJSON ⟨[], env.STEVE, 0, []⟩ with
  | error err => rw [herr err hbind]
  | ok request1 =>
    obtain ⟨request2, hbind2, hres⟩ := hok request1 hbind
    rw [hbind2]
    simp only [hres]

/-- Below level one the resolution is that of level 0. -/
theorem resolveAndStore_nonpositive (env : Env) (accessToken : GoString) (profileId : UUID)
    (textureType : GoString) (request : SetTextureRequest) (level : Int) (hlevel : level ≤ 0) :
    resolveAndStore env accessToken profileId textureType
        { request with ForceMojangSkin := level } =
      resolveAndStore env accessToken profileId textureType
        { request with ForceMojangSkin := 0 } := by
  have h2 : ¬ level = 2 := by omega
  have hpos : ¬ level > 0 := by omega
  unfold resolveAndStore accountStage
  simp only [h2, hpos, if_false, OfNat.zero_ne_ofNat, gt_iff_lt, lt_self_iff_false]

/-- At a level other than two, from level one on, the resolution is the profile
stage for the id of the path, entered with no lookup made and with the url of the
request; the level and the username play no further part. -/
theorem resolveAndStore_profile_only (env : Env) (accessToken : GoString) (profileId : UUID)
    (textureType : GoString) (request : SetTextureRequest) (hlevel : 1 ≤ request.ForceMojangSkin)
    (h2 : request.ForceMojangSkin ≠ 2) :
    resolveAndStore env accessToken profileId textureType request =
      profileStage env [] accessToken profileId textureType
        (if request.Model = [] then env.STEVE else request.Model)
        ⟨request.Url, [], 0, []⟩ uuid.Nil := by
  have hpos : request.ForceMojangSkin > 0 := by omega
  unfold resolveAndStore accountStage
  simp only [h2, hpos, if_false, if_true]
  rfl

/-- Below level one the resolution does not read the username. -/
theorem resolveAndStore_store_only (env : Env) (accessToken : GoString) (profileId : UUID)
    (textureType : GoString) (request : SetTextureRequest)
    (hlevel : request.ForceMojangSkin ≤ 0) :
    resolveAndStore env accessToken profileId textureType request =
      storeSetTexture env [] accessToken profileId request.Url textureType
        (if request.Model = [] then env.STEVE else request.Model) := by
  have h2 : ¬ request.ForceMojangSkin = 2 := by omega
  have hpos : ¬ request.ForceMojangSkin > 0 := by omega
  unfold resolveAndStore accountStage
  simp only [h2, hpos, if_false]

/-- At a level other than two the resolution does not depend on the username. -/
theorem resolveAndStore_username (env : Env) (accessToken : GoString) (profileId : UUID)
    (textureType : GoString) (request : SetTextureRequest) (username : GoString)
    (h2 : request.ForceMojangSkin ≠ 2) :
    resolveAndStore env accessToken profileId textureType { request with Username := username } =
      resolveAndStore env accessToken profileId textureType request := by
  by_cases hlevel : 1 ≤ request.ForceMojangSkin
  · rw [resolveAndStore_profile_only env _ _ _ request hlevel h2,
      resolveAndStore_profile_only env _ _ _ { request with Username := username } hlevel h2]
  · rw [resolveAndStore_store_only env _ _ _ request (by omega),
      resolveAndStore_store_only env _ _ _ { request with Username := username }
        (by show request.ForceMojangSkin ≤ 0; omega)]

/-- Two levels that the resolution treats alike give the same result from
`SetTexture`, the rest of the request being the same. -/
theorem SetTexture_withLevel_congr (env : Env) (c : Context) (level1 level2 : Int)
    (h : ∀ (request : SetTextureRequest) accessToken profileId textureType,
      resolveAndStore env accessToken profileId textureType
          { request with ForceMojangSkin := level1 } =
        resolveAndStore env accessToken profileId textureType
          { request with ForceMojangSkin := level2 }) :
    SetTexture env (withLevel c level1) = SetTexture env (withLevel c level2) := by
  apply SetTexture_congr env (withLevel c level1) (withLevel c level2) rfl rfl
  · intro err hbind
    unfold withLevel at hbind ⊢
    cases hb : c.ShouldBindJSON ⟨[], env.STEVE, 0, []⟩ with
    | error e =>
      simp only [hb] at hbind ⊢
      exact hbind
    | ok request =>
      simp only [hb] at hbind
      cases hbind
  · intro request1 hbind
    unfold withLevel at hbind ⊢
    cases hb : c.ShouldBindJSON ⟨[], env.STEVE, 0, []⟩ with
    | error e =>
      simp only [hb] at hbind
      cases hbind
    | ok request =>
      simp only [hb] at hbind
      have hreq := Except.ok.inj hbind
      subst hreq
      exact ⟨{ request with ForceMojangSkin := level2 }, by simp only [hb], h request⟩

/-- At a level other than two, binding another username leaves the result of
`SetTexture` as it was. -/
theorem SetTexture_withUsername (env : Env) (c : Context) (level : Int) (username : GoString)
    (h2 : level ≠ 2) :
    SetTexture env (withUsername (withLevel c level) username) =
      SetTexture env (withLevel c level) := by
  apply SetTexture_congr env (withUsername (withLevel c level) username) (withLevel c level)
    rfl rfl
  · intro err hbind
    unfold withUsername withLevel at hbind
    unfold withLevel
    cases hb : c.ShouldBindJSON ⟨[], env.STEVE, 0, []⟩ with
    | error e =>
      simp only [hb] at hbind ⊢
      exact hbind
    | ok request =>
      simp only [hb] at hbind
      cases hbind
  · intro request1 hbind
    unfold withUsername withLevel at hbind
    unfold withLevel
    cases hb : c.ShouldBindJSON ⟨[], env.STEVE, 0, []⟩ with
    | error e =>
      simp only [hb] at hbind
      cases hbind
    | ok request =>
      simp only [hb] at hbind
      have hreq := Except.ok.inj hbind
      subst hreq
      refine ⟨{ request with ForceMojangSkin := level }, by simp only [hb], fun _ _ _ => ?_⟩
      exact resolveAndStore_username env _ _ _ { request with ForceMojangSkin := level }
        username h2

/-- The four gates of `SetTexture`, in source order: each failure ends the request
with a JSON error written by the handler, without a lookup or a call on the store. -/
theorem SetTexture_gate_failures (env : Env) (c : Context) :
    (∀ err, c.ShouldBindJSON ⟨[], env.STEVE, 0, []⟩ = Except.error err →
      SetTexture env c =
        ⟨[], [], Response.abortWithStatusJSON StatusForbidden
          (ErrorBody.NewForbiddenOperationError err)⟩) ∧
    (∀ request, c.ShouldBindJSON ⟨[], env.STEVE, 0, []⟩ = Except.ok request →
      (c.GetHeader (ascii "Authorization")).length < 8 →
      SetTexture env c = invalidToken env) ∧
    (∀ request err, c.ShouldBindJSON ⟨[], env.STEVE, 0, []⟩ = Except.ok request →
      8 ≤ (c.GetHeader (ascii "Authorization")).length →
      env.ToUUID (c.Param (ascii "uuid")) = Except.error err →
      SetTexture env c =
        ⟨[], [], Response.abortWithStatusJSON StatusBadRequest
          (ErrorBody.NewIllegalArgumentError err)⟩) ∧
    (∀ request profileId, c.ShouldBindJSON ⟨[], env.STEVE, 0, []⟩ = Except.ok request →
      8 ≤ (c.GetHeader (ascii "Authorization")).length →
      env.ToUUID (c.Param (ascii "uuid")) = Except.ok profileId →
      (c.Param (ascii "textureType") ≠ ascii "skin" ∧
        c.Param (ascii "textureType") ≠ ascii "cape") →
      SetTexture env c = invalidTextureType) := by
  refine ⟨?_, ?_, ?_, ?_⟩
  · intro err hbind
    unfold SetTexture
    simp only [hbind]
  · intro request hbind hshort
    unfold SetTexture invalidToken
    simp only [hbind, hshort, if_true]
  · intro request err hbind htoken huuid
    have htok : ¬ (c.GetHeader (ascii "Authorization")).length < 8 := Nat.not_lt.mpr htoken
    unfold SetTexture
    simp only [hbind, htok, if_false, huuid]
  · intro request profileId hbind htoken huuid htype
    have htok : ¬ (c.GetHeader (ascii "Authorization")).length < 8 := Nat.not_lt.mpr htoken
    unfold SetTexture invalidTextureType
    simp only [hbind, htok, if_false, huuid]
    rw [if_pos htype]

/-- The response of the profile stage on a failed profile lookup, read through
`IsOrWraps`: `c.Status(404)` for an error that is or wraps a `YggdrasilError` of
status 204, `util.HandleError` on the unchanged error for every other one; the store
is not called. -/
theorem profileStage_error_response (env : Env) (lookups : List GoString)
    (accessToken : GoString) (profileId : UUID) (textureType modelType : GoString)
    (request : SetTextureRequest) (newUUID : UUID) (resultErr : GoError)
    (hprofile :
      env.GetObject (profileUrl env (targetId profileId newUUID)) = Except.error resultErr) :
    (profileStage env lookups accessToken profileId textureType modelType request
        newUUID).store = [] ∧
    ((∃ yggErr, IsOrWraps yggErr resultErr ∧ yggErr.Status = 204) →
      (profileStage env lookups accessToken profileId textureType modelType request
        newUUID).response = Response.status 404) ∧
    ((∀ yggErr, IsOrWraps yggErr resultErr → yggErr.Status ≠ 204) →
      (profileStage env lookups accessToken profileId textureType modelType request
        newUUID).response = Response.handleError resultErr) := by
  rw [profileStage_error env _ _ _ _ _ _ _ resultErr hprofile]
  refine ⟨rfl, ?_, ?_⟩
  · rintro ⟨yggErr, hwraps, hstatus⟩
    have has : errorsAs resultErr = some yggErr :=
      (errorsAs_eq_some_iff resultErr yggErr).mpr hwraps
    simp only [has, hstatus, if_true]
  · intro hother
    cases has : errorsAs resultErr with
    | none => rfl
    | some yggErr =>
      have hne := hother yggErr ((errorsAs_eq_some_iff resultErr yggErr).mp has)
      simp only [hne, if_false]

/-- When the handling of the form file reaches the store, the response is the one the
store decides: `util.HandleError` on its error, `204` without one. -/
theorem uploadFile_store_cases (env : Env) (c : Context) (accessToken : GoString)
    (profileId : UUID) (textureType : GoString) :
    (uploadFile env c accessToken profileId textureType).store = [] ∨
    ∃ fileReader modelType,
      uploadFile env c accessToken profileId textureType =
        ⟨[], [StoreCall.UploadTexture accessToken profileId fileReader textureType modelType],
          match env.textureService.UploadTexture accessToken profileId fileReader textureType
              modelType with
          | some err => Response.handleError err
          | none => Response.status StatusNoContent⟩ := by
  cases hfile : c.FormFile (ascii "file") with
  | error err =>
    rw [uploadFile_no_file env c _ _ _ err hfile]
    exact Or.inl rfl
  | ok file =>
    by_cases hsize : file.Size > 2 ^ 20
    · rw [uploadFile_too_large env c _ _ _ file hfile hsize]
      exact Or.inl rfl
    · cases hopen : file.Open with
      | error err =>
        rw [uploadFile_open_error env c _ _ _ file err hfile hsize hopen]
        exact Or.inl rfl
      | ok fileReader =>
        right
        refine ⟨fileReader,
          if c.PostForm (ascii "model") = ascii "ALEX" then env.ALEX else env.STEVE, ?_⟩
        unfold uploadFile
        simp only [hfile]
        rw [if_neg hsize]
        simp only [hopen]
        cases env.textureService.UploadTexture accessToken profileId fileReader textureType
          (if c.PostForm (ascii "model") = ascii "ALEX" then env.ALEX else env.STEVE) <;> rfl

/-- When `UploadTexture` reaches the store, the response is the one the store
decides: `util.HandleError` on its error, `204` without one. -/
theorem UploadTexture_store_cases (env : Env) (c : Context) :
    (UploadTexture env c).store = [] ∨
    ∃ accessToken profileId fileReader textureType modelType,
      UploadTexture env c =
        ⟨[], [StoreCall.UploadTexture accessToken profileId fileReader textureType modelType],
          match env.textureService.UploadTexture accessToken profileId fileReader textureType
              modelType with
          | some err => Response.handleError err
          | none => Response.status StatusNoContent⟩ := by
  rcases UploadTexture_cases env c with ⟨hstore, _⟩ | ⟨⟨call, hcall⟩, _⟩
  · exact Or.inl hstore
  · by_cases htok : (c.GetHeader (ascii "Authorization")).length < 8
    · have h : UploadTexture env c = invalidToken env := by
        unfold UploadTexture invalidToken
        simp only [htok, if_true]
      rw [h] at hcall
      cases hcall
    · cases huuid : env.ToUUID (c.Param (ascii "uuid")) with
      | error err =>
        have h : UploadTexture env c = ⟨[], [], Response.abortWithStatusJSON StatusBadRequest
            (ErrorBody.NewIllegalArgumentError err)⟩ := by
          unfold UploadTexture
          simp only [htok, if_false, huuid]
        rw [h] at hcall
        cases hcall
      | ok profileId =>
        have hg : PathGates env c profileId := ⟨Nat.le_of_not_lt htok, huuid⟩
        by_cases htype : c.Param (ascii "textureType") ≠ ascii "skin" ∧
            c.Param (ascii "textureType") ≠ ascii "cape"
        · rw [(path_handlers_invalid_type hg htype).1] at hcall
          cases hcall
        · have hvalid : c.Param (ascii "textureType") = ascii "skin" ∨
              c.Param (ascii "textureType") = ascii "cape" := by
            by_cases hskin : c.Param (ascii "textureType") = ascii "skin"
            · exact Or.inl hskin
            · right
              by_contra hcape
              exact htype ⟨hskin, hcape⟩
          rw [UploadTexture_of_gates hg hvalid]
          rcases uploadFile_store_cases env c (accessTokenOf c) profileId
            (c.Param (ascii "textureType")) with hnone | ⟨fileReader, modelType, heq⟩
          · exact Or.inl hnone
          · exact Or.inr ⟨_, _, fileReader, _, modelType, heq⟩

/-- When `DeleteTexture` reaches the store, the response is the one the store
decides: `util.HandleError` on its error, `204` without one. -/
theorem DeleteTexture_store_cases (env : Env) (c : Context) :
    (DeleteTexture env c).store = [] ∨
    ∃ accessToken profileId textureType,
      DeleteTexture env c =
        ⟨[], [StoreCall.DeleteTexture accessToken profileId textureType],
          match env.textureService.DeleteTexture accessToken profileId textureType with
          | some err => Response.handleError err
          | none => Response.status StatusNoContent⟩ := by
  rcases DeleteTexture_cases env c with ⟨hstore, _⟩ | ⟨⟨call, hcall⟩, _⟩
  · exact Or.inl hstore
  · by_cases htok : (c.GetHeader (ascii "Authorization")).length < 8
    · have h : DeleteTexture env c = invalidToken env := by
        unfold DeleteTexture invalidToken
        simp only [htok, if_true]
      rw [h] at hcall
      cases hcall
    · cases huuid : env.ToUUID (c.Param (ascii "uuid")) with
      | error err =>
        have h : DeleteTexture env c = ⟨[], [], Response.abortWithStatusJSON StatusBadRequest
            (ErrorBody.NewIllegalArgumentError err)⟩ := by
          unfold DeleteTexture
          simp only [htok, if_false, huuid]
        rw [h] at hcall
        cases hcall
      | ok profileId =>
        have hg : PathGates env c profileId := ⟨Nat.le_of_not_lt htok, huuid⟩
        by_cases htype : c.Param (ascii "textureType") ≠ ascii "skin" ∧
            c.Param (ascii "textureType") ≠ ascii "cape"
        · rw [(path_handlers_invalid_type hg htype).2] at hcall
          cases hcall
        · have hvalid : c.Param (ascii "textureType") = ascii "skin" ∨
              c.Param (ascii "textureType") = ascii "cape" := by
            by_cases hskin : c.Param (ascii "textureType") = ascii "skin"
            · exact Or.inl hskin
            · right
              by_contra hcape
              exact htype ⟨hskin, hcape⟩
          right
          refine ⟨accessTokenOf c, profileId, c.Param (ascii "textureType"), ?_⟩
          rw [DeleteTexture_of_gates hg hvalid]
          unfold storeDeleteTexture
          cases env.textureService.DeleteTexture (accessTokenOf c) profileId
            (c.Param (ascii "textureType")) <;> rfl

/-! ## Properties of the handlers, continued -/

/-- C11: `SetTexture` calls the store at most once, and each call comes after the
four gates and after a resolution that succeeded with the url of the call; when the
handler writes a JSON error or `404` of its own, when the gates are not passed, and
when the gates are passed but the resolution does not succeed, the store is not
called. -/
theorem C11_store_called_once_after_success (env : Env) (c : Context) :
    (SetTexture env c).store.length ≤ 1 ∧
    (∀ call ∈ (SetTexture env c).store,
      ∃ request profileId url,
        Gates env c request profileId ∧ Resolved env request profileId url ∧
        (SetTexture env c).store = [call] ∧
        call = storeCallOf env c request profileId url) ∧
    (∀ code body, (SetTexture env c).response = Response.abortWithStatusJSON code body →
      (SetTexture env c).store = []) ∧
    ((SetTexture env c).response = Response.status 404 → (SetTexture env c).store = []) ∧
    ((¬ ∃ request profileId, Gates env c request profileId) →
      (SetTexture env c).store = []) ∧
    (∀ request profileId, Gates env c request profileId →
      (¬ ∃ url, Resolved env request profileId url) → (SetTexture env c).store = []) := by
  rcases SetTexture_cases env c with ⟨hstore, _⟩ | ⟨request, profileId, url, lookups, hg, hres, heq⟩
  · rw [hstore]
    refine ⟨Nat.zero_le 1, ?_, fun _ _ _ => rfl, fun _ => rfl, fun _ => rfl, fun _ _ _ _ => rfl⟩
    intro call hcall
    cases hcall
  · have hstore : (SetTexture env c).store = [storeCallOf env c request profileId url] := by
      rw [heq]
      exact storeSetTexture_store _ _ _ _ _ _ _
    have hresp := storeSetTexture_response_cases env lookups (accessTokenOf c) profileId url
      (c.Param (ascii "textureType")) (modelTypeOf env request)
    rw [← heq] at hresp
    refine ⟨?_, ?_, ?_, ?_, ?_, ?_⟩
    · rw [hstore]
      exact Nat.le_refl 1
    · intro call hcall
      rw [hstore, List.mem_singleton] at hcall
      exact ⟨request, profileId, url, hg, hres, hcall ▸ hstore, hcall⟩
    · intro code body habort
      rcases hresp with h | ⟨err, h⟩ <;> rw [h] at habort <;> cases habort
    · intro h404
      rcases hresp with h | ⟨err, h⟩ <;> rw [h] at h404 <;> cases h404
    · intro hnone
      exact absurd ⟨request, profileId, hg⟩ hnone
    · intro request2 profileId2 hg2 hnone
      obtain ⟨hreq, hid⟩ := Gates_unique hg hg2
      subst hreq
      subst hid
      exact absurd ⟨url, hres⟩ hnone

/-- C11 at two requests: a level-2 request for `Notch`, where the one call on the
store comes after the gates and the resolution; and a level-2 request for `Gone`,
answered `404` without a call on the store. -/
theorem C11_witness :
    (∃ request profileId url,
      Gates (demoEnv (profileWith [property (ascii "textures") skinBase64]))
        (demoContext ⟨clientUrl, ascii "slim", 2, ascii "Notch"⟩) request profileId ∧
      Resolved (demoEnv (profileWith [property (ascii "textures") skinBase64])) request
        profileId url ∧
      (SetTexture (demoEnv (profileWith [property (ascii "textures") skinBase64]))
        (demoContext ⟨clientUrl, ascii "slim", 2, ascii "Notch"⟩)).store =
        [StoreCall.SetTexture (ascii "token123") demoProfileId (ascii "https://example/s.png")
          (ascii "skin") (ascii "slim")] ∧
      StoreCall.SetTexture (ascii "token123") demoProfileId (ascii "https://example/s.png")
          (ascii "skin") (ascii "slim") =
        storeCallOf (demoEnv (profileWith [property (ascii "textures") skinBase64]))
          (demoContext ⟨clientUrl, ascii "slim", 2, ascii "Notch"⟩) request profileId url) ∧
    (SetTexture (demoEnv (profileWith [property (ascii "textures") skinBase64]))
      (demoContext ⟨clientUrl, ascii "slim", 2, ascii "Gone"⟩)).store = [] :=
  ⟨(C11_store_called_once_after_success
      (demoEnv (profileWith [property (ascii "textures") skinBase64]))
      (demoContext ⟨clientUrl, ascii "slim", 2, ascii "Notch"⟩)).2.1
      (StoreCall.SetTexture (ascii "token123") demoProfileId (ascii "https://example/s.png")
        (ascii "skin") (ascii "slim"))
      (by
        have hstore : (SetTexture (demoEnv (profileWith [property (ascii "textures") skinBase64]))
            (demoContext ⟨clientUrl, ascii "slim", 2, ascii "Notch"⟩)).store =
            [StoreCall.SetTexture (ascii "token123") demoProfileId
              (ascii "https://example/s.png") (ascii "skin") (ascii "slim")] := rfl
        rw [hstore]
        exact List.mem_singleton.mpr rfl),
    (C11_store_called_once_after_success
      (demoEnv (profileWith [property (ascii "textures") skinBase64]))
      (demoContext ⟨clientUrl, ascii "slim", 2, ascii "Gone"⟩)).2.2.2.1 rfl⟩


/-- C12: every call `SetTexture` makes on the store has these arguments: the
`Authorization` header without its first seven bytes, the profile id read from the
path, the url the resolution ended at, the texture type of the path, and the model of
the bound body (`STEVE` for an empty one); the same request at level 0 makes the same
call with the url of the request, so the resolution changes the url alone. -/
theorem C12_store_call_arguments (env : Env) (c : Context) :
    ∀ call ∈ (SetTexture env c).store,
      ∃ request profileId url,
        c.ShouldBindJSON ⟨[], env.STEVE, 0, []⟩ = Except.ok request ∧
        env.ToUUID (c.Param (ascii "uuid")) = Except.ok profileId ∧
        Resolved env request profileId url ∧
        call = StoreCall.SetTexture ((c.GetHeader (ascii "Authorization")).drop 7) profileId url
          (c.Param (ascii "textureType"))
          (if request.Model = [] then env.STEVE else request.Model) ∧
        (SetTexture env (withLevel c 0)).store =
          [StoreCall.SetTexture ((c.GetHeader (ascii "Authorization")).drop 7) profileId
            request.Url (c.Param (ascii "textureType"))
            (if request.Model = [] then env.STEVE else request.Model)] := by
  intro call hcall
  rcases SetTexture_cases env c with ⟨hstore, _⟩ | ⟨request, profileId, url, lookups, hg, hres, heq⟩
  · rw [hstore] at hcall
    cases hcall
  · rw [heq, storeSetTexture_store, List.mem_singleton] at hcall
    refine ⟨request, profileId, url, hg.body, hg.uuid, hres, hcall, ?_⟩
    rw [SetTexture_of_gates (Gates_withLevel 0 hg)]
    unfold resolveAndStore accountStage
    simp only [OfNat.zero_ne_ofNat, if_false, gt_iff_lt, lt_self_iff_false]
    exact storeSetTexture_store _ _ _ _ _ _ _

/-- C12 at a level-2 request for `Notch`: the store receives the token `token123`,
the id of the path (not the id of `Notch`), the resolved url, `skin` and `slim`; at
level 0 it receives the same arguments with the url of the client. -/
theorem C12_witness :
    ∃ request profileId url,
      (demoContext ⟨clientUrl, ascii "slim", 2, ascii "Notch"⟩).ShouldBindJSON
        ⟨[], (demoEnv (profileWith [property (ascii "textures") skinBase64])).STEVE, 0, []⟩ =
        Except.ok request ∧
      (demoEnv (profileWith [property (ascii "textures") skinBase64])).ToUUID
        ((demoContext ⟨clientUrl, ascii "slim", 2, ascii "Notch"⟩).Param (ascii "uuid")) =
        Except.ok profileId ∧
      Resolved (demoEnv (profileWith [property (ascii "textures") skinBase64])) request
        profileId url ∧
      StoreCall.SetTexture (ascii "token123") demoProfileId (ascii "https://example/s.png")
          (ascii "skin") (ascii "slim") =
        StoreCall.SetTexture
          (((demoContext ⟨clientUrl, ascii "slim", 2, ascii "Notch"⟩).GetHeader
            (ascii "Authorization")).drop 7) profileId url
          ((demoContext ⟨clientUrl, ascii "slim", 2, ascii "Notch"⟩).Param (ascii "textureType"))
          (if request.Model = []
            then (demoEnv (profileWith [property (ascii "textures") skinBase64])).STEVE
            else request.Model) ∧
      (SetTexture (demoEnv (profileWith [property (ascii "textures") skinBase64]))
        (withLevel (demoContext ⟨clientUrl, ascii "slim", 2, ascii "Notch"⟩) 0)).store =
        [StoreCall.SetTexture
          (((demoContext ⟨clientUrl, ascii "slim", 2, ascii "Notch"⟩).GetHeader
            (ascii "Authorization")).drop 7) profileId request.Url
          ((demoContext ⟨clientUrl, ascii "slim", 2, ascii "Notch"⟩).Param (ascii "textureType"))
          (if request.Model = []
            then (demoEnv (profileWith [property (ascii "textures") skinBase64])).STEVE
            else request.Model)] :=
  C12_store_call_arguments (demoEnv (profileWith [property (ascii "textures") skinBase64]))
    (demoContext ⟨clientUrl, ascii "slim", 2, ascii "Notch"⟩)
    (StoreCall.SetTexture (ascii "token123") demoProfileId (ascii "https://example/s.png")
      (ascii "skin") (ascii "slim"))
    (by
      have hstore : (SetTexture (demoEnv (profileWith [property (ascii "textures") skinBase64]))
          (demoContext ⟨clientUrl, ascii "slim", 2, ascii "Notch"⟩)).store =
          [StoreCall.SetTexture (ascii "token123") demoProfileId
            (ascii "https://example/s.png") (ascii "skin") (ascii "slim")] := rfl
      rw [hstore]
      exact List.mem_singleton.mpr rfl)


/-- C13, counterexample: at a level-3 request whose profile lookup fails with a
`YggdrasilError` of status 204, `SetTexture` fails with `c.Status(404)`, a status
code alone: the response is no JSON error written by the handler and is not handed
to `util.HandleError`. -/
theorem C13_bare_404_counterexample :
    SetTexture (demoEnv (Except.error (GoError.ygg ⟨204, [], ascii "No Content"⟩)))
      (demoContext ⟨clientUrl, ascii "slim", 3, []⟩) =
      ⟨[ascii "https://sessionserver.mojang.com/session/minecraft/profile/11111111222233334444555555555555"],
        [], Response.status 404⟩ ∧
    (¬ ∃ code body,
      (SetTexture (demoEnv (Except.error (GoError.ygg ⟨204, [], ascii "No Content"⟩)))
        (demoContext ⟨clientUrl, ascii "slim", 3, []⟩)).response =
        Response.abortWithStatusJSON code body) ∧
    (¬ ∃ err,
      (SetTexture (demoEnv (Except.error (GoError.ygg ⟨204, [], ascii "No Content"⟩)))
        (demoContext ⟨clientUrl, ascii "slim", 3, []⟩)).response =
        Response.handleError err) := by
  have h : SetTexture (demoEnv (Except.error (GoError.ygg ⟨204, [], ascii "No Content"⟩)))
      (demoContext ⟨clientUrl, ascii "slim", 3, []⟩) =
      ⟨[ascii "https://sessionserver.mojang.com/session/minecraft/profile/11111111222233334444555555555555"],
        [], Response.status 404⟩ := rfl
  rw [h]
  refine ⟨rfl, ?_, ?_⟩
  · rintro ⟨code, body, hresp⟩
    cases hresp
  · rintro ⟨err, hresp⟩
    cases hresp

/-- C13, amended: `UploadTexture` and `DeleteTexture` end with a JSON error written
by the handler and no call on the store, or with one call on the store and then `204`
or `util.HandleError`.  Each of the four gates of `SetTexture` (body, token, profile
id, texture type) fails with a JSON error written by the handler.  Past the gates, a
failed level-2 account lookup and a profile lookup failing with `no content` are
answered by `c.Status(404)`, a status code alone, and every other error of the
profile lookup and the error of a missing or empty `properties` go to
`util.HandleError`, all without a call on the store.  A status code without a body
from `SetTexture` is `204` after the store call, or `404` with no call on the store.
Every call `SetTexture` makes on the store carries the url of the request or the skin
url of an entry of the profile, and the response after it, like the response after
the store call of `UploadTexture` and of `DeleteTexture`, is the one the store
decides: `util.HandleError` on its error, `204` without one. -/
theorem C13_failure_responses (env : Env) (c : Context) :
    (((UploadTexture env c).store = [] ∧
        ∃ code body, (UploadTexture env c).response = Response.abortWithStatusJSON code body) ∨
      ((∃ call, (UploadTexture env c).store = [call]) ∧
        ((UploadTexture env c).response = Response.status 204 ∨
          ∃ err, (UploadTexture env c).response = Response.handleError err))) ∧
    (((DeleteTexture env c).store = [] ∧
        ∃ code body, (DeleteTexture env c).response = Response.abortWithStatusJSON code body) ∨
      ((∃ call, (DeleteTexture env c).store = [call]) ∧
        ((DeleteTexture env c).response = Response.status 204 ∨
          ∃ err, (DeleteTexture env c).response = Response.handleError err))) ∧
    (∀ code, (SetTexture env c).response = Response.status code →
      (code = 204 ∧ (SetTexture env c).store ≠ []) ∨
      (code = 404 ∧ (SetTexture env c).store = [])) ∧
    (∀ call ∈ (SetTexture env c).store,
      ∃ request profileId url,
        Gates env c request profileId ∧
        call = storeCallOf env c request profileId url ∧
        (url = request.Url ∨ ∃ entry, HasSkinUrl env entry url) ∧
        (SetTexture env c).response = storeResponseOf env c request profileId url) ∧
    (∀ err, c.ShouldBindJSON ⟨[], env.STEVE, 0, []⟩ = Except.error err →
      SetTexture env c =
        ⟨[], [], Response.abortWithStatusJSON StatusForbidden
          (ErrorBody.NewForbiddenOperationError err)⟩) ∧
    (∀ request, c.ShouldBindJSON ⟨[], env.STEVE, 0, []⟩ = Except.ok request →
      (c.GetHeader (ascii "Authorization")).length < 8 →
      SetTexture env c = invalidToken env) ∧
    (∀ request err, c.ShouldBindJSON ⟨[], env.STEVE, 0, []⟩ = Except.ok request →
      8 ≤ (c.GetHeader (ascii "Authorization")).length →
      env.ToUUID (c.Param (ascii "uuid")) = Except.error err →
      SetTexture env c =
        ⟨[], [], Response.abortWithStatusJSON StatusBadRequest
          (ErrorBody.NewIllegalArgumentError err)⟩) ∧
    (∀ request profileId, c.ShouldBindJSON ⟨[], env.STEVE, 0, []⟩ = Except.ok request →
      8 ≤ (c.GetHeader (ascii "Authorization")).length →
      env.ToUUID (c.Param (ascii "uuid")) = Except.ok profileId →
      (c.Param (ascii "textureType") ≠ ascii "skin" ∧
        c.Param (ascii "textureType") ≠ ascii "cape") →
      SetTexture env c = invalidTextureType) ∧
    (∀ request profileId, Gates env c request profileId →
      (request.ForceMojangSkin = 2 → AccountFailure env request.Username →
        SetTexture env c = ⟨[accountUrl request.Username], [], Response.status 404⟩) ∧
      (∀ newUUID resultErr, 1 ≤ request.ForceMojangSkin →
        accountStage env request = some newUUID →
        env.GetObject (profileUrl env (targetId profileId newUUID)) = Except.error resultErr →
        (SetTexture env c).store = [] ∧
        ((∃ yggErr, IsOrWraps yggErr resultErr ∧ yggErr.Status = 204) →
          (SetTexture env c).response = Response.status 404) ∧
        ((∀ yggErr, IsOrWraps yggErr resultErr → yggErr.Status ≠ 204) →
          (SetTexture env c).response = Response.handleError resultErr)) ∧
      (∀ newUUID result, 1 ≤ request.ForceMojangSkin →
        accountStage env request = some newUUID →
        env.GetObject (profileUrl env (targetId profileId newUUID)) = Except.ok result →
        ((∀ properties, GoMap.get result (ascii "properties") ≠ GoVal.arr properties) ∨
          GoMap.get result (ascii "properties") = GoVal.arr []) →
        (SetTexture env c).store = [] ∧
        (SetTexture env c).response = Response.handleError propertiesError)) ∧
    ((UploadTexture env c).store = [] ∨
      ∃ accessToken profileId fileReader textureType modelType,
        UploadTexture env c =
          ⟨[], [StoreCall.UploadTexture accessToken profileId fileReader textureType modelType],
            match env.textureService.UploadTexture accessToken profileId fileReader
                textureType modelType with
            | some err => Response.handleError err
            | none => Response.status StatusNoContent⟩) ∧
    ((DeleteTexture env c).store = [] ∨
      ∃ accessToken profileId textureType,
        DeleteTexture env c =
          ⟨[], [StoreCall.DeleteTexture accessToken profileId textureType],
            match env.textureService.DeleteTexture accessToken profileId textureType with
            | some err => Response.handleError err
            | none => Response.status StatusNoContent⟩) := by
  refine ⟨UploadTexture_cases env c, DeleteTexture_cases env c, ?_, ?_,
    (SetTexture_gate_failures env c).1, (SetTexture_gate_failures env c).2.1,
    (SetTexture_gate_failures env c).2.2.1, (SetTexture_gate_failures env c).2.2.2, ?_,
    UploadTexture_store_cases env c, DeleteTexture_store_cases env c⟩
  · intro code hcode
    rcases SetTexture_cases env c with
      ⟨hstore, hresp⟩ | ⟨request, profileId, url, lookups, hg, hres, heq⟩
    · right
      refine ⟨?_, hstore⟩
      rcases hresp with ⟨code2, body, h⟩ | h | h | ⟨err, h⟩
      · rw [h] at hcode
        cases hcode
      · rw [h] at hcode
        exact (Response.status.inj hcode).symm
      · rw [h] at hcode
        cases hcode
      · rw [h] at hcode
        cases hcode
    · left
      have hresp := storeSetTexture_response_cases env lookups (accessTokenOf c) profileId url
        (c.Param (ascii "textureType")) (modelTypeOf env request)
      rw [← heq] at hresp
      constructor
      · rcases hresp with h | ⟨err, h⟩
        · rw [h] at hcode
          exact (Response.status.inj hcode).symm
        · rw [h] at hcode
          cases hcode
      · rw [heq, storeSetTexture_store]
        exact List.cons_ne_nil _ _
  · intro call hcall
    rcases SetTexture_cases env c with
      ⟨hstore, _⟩ | ⟨request, profileId, url, lookups, hg, hres, heq⟩
    · rw [hstore] at hcall
      cases hcall
    · rw [heq, storeSetTexture_store, List.mem_singleton] at hcall
      refine ⟨request, profileId, url, hg, hcall, ?_, ?_⟩
      · rcases hres with ⟨_, hurl⟩ | ⟨_, newUUID, result, properties, _, _, _, _, hscan⟩
        · exact Or.inl hurl
        · exact (scanProperties_done env request.Url url properties hscan).imp id
            (fun ⟨entry, _, hskin⟩ => ⟨entry, hskin⟩)
      · rw [heq]
        exact storeSetTexture_response _ _ _ _ _ _ _
  · intro request profileId hg
    refine ⟨?_, ?_, ?_⟩
    · intro hlevel hfail
      exact SetTexture_account_none hg hlevel
        (accountStage_of_failure env request hlevel hfail)
    · intro newUUID resultErr hlevel hacct hprofile
      rw [SetTexture_profileStage hg hlevel hacct]
      exact profileStage_error_response env _ _ _ _ _ _ _ resultErr hprofile
    · intro newUUID result hlevel hacct hprofile hbad
      rw [SetTexture_profileStage hg hlevel hacct,
        profileStage_properties_error env _ _ _ _ _ _ _ result hprofile hbad]
      exact ⟨rfl, rfl⟩

/-- C13, amended, at four requests: a request without a token whose body does not
bind, answered `403` with the binding error as JSON; a level-2 request for `Gone`,
answered by the bare `404`, with no call on the store; a level-1 request whose
profile lookup fails with `connection refused`, which goes to `util.HandleError`;
and a level-1 request whose only entry named `textures` is no base64, where the store
receives the url of the client and the response is the one the store decides. -/
theorem C13_witness :
    SetTexture (demoEnv (profileWith [])) (contextWith [] (Except.error (ascii "EOF"))) =
      ⟨[], [], Response.abortWithStatusJSON 403
        (ErrorBody.NewForbiddenOperationError (ascii "EOF"))⟩ ∧
    SetTexture (demoEnv (profileWith [property (ascii "textures") (ascii "!!")]))
        (demoContext ⟨clientUrl, ascii "slim", 2, ascii "Gone"⟩) =
      ⟨[ascii "https://api.mojang.com/users/profiles/minecraft/Gone"], [],
        Response.status 404⟩ ∧
    ((SetTexture (demoEnv (Except.error (GoError.other (ascii "connection refused"))))
        (demoContext ⟨clientUrl, ascii "slim", 1, []⟩)).store = [] ∧
      (SetTexture (demoEnv (Except.error (GoError.other (ascii "connection refused"))))
        (demoContext ⟨clientUrl, ascii "slim", 1, []⟩)).response =
        Response.handleError (GoError.other (ascii "connection refused"))) ∧
    ((404 = 204 ∧
        (SetTexture (demoEnv (profileWith [property (ascii "textures") (ascii "!!")]))
          (demoContext ⟨clientUrl, ascii "slim", 2, ascii "Gone"⟩)).store ≠ []) ∨
      (404 = 404 ∧
        (SetTexture (demoEnv (profileWith [property (ascii "textures") (ascii "!!")]))
          (demoContext ⟨clientUrl, ascii "slim", 2, ascii "Gone"⟩)).store = [])) ∧
    ∃ request profileId url,
      Gates (demoEnv (profileWith [property (ascii "textures") (ascii "!!")]))
        (demoContext ⟨clientUrl, ascii "slim", 1, []⟩) request profileId ∧
      StoreCall.SetTexture (ascii "token123") demoProfileId clientUrl (ascii "skin")
          (ascii "slim") =
        storeCallOf (demoEnv (profileWith [property (ascii "textures") (ascii "!!")]))
          (demoContext ⟨clientUrl, ascii "slim", 1, []⟩) request profileId url ∧
      (url = request.Url ∨
        ∃ entry, HasSkinUrl (demoEnv (profileWith [property (ascii "textures") (ascii "!!")]))
          entry url) ∧
      (SetTexture (demoEnv (profileWith [property (ascii "textures") (ascii "!!")]))
        (demoContext ⟨clientUrl, ascii "slim", 1, []⟩)).response =
        storeResponseOf (demoEnv (profileWith [property (ascii "textures") (ascii "!!")]))
          (demoContext ⟨clientUrl, ascii "slim", 1, []⟩) request profileId url :=
  have hgone := C13_failure_responses
    (demoEnv (profileWith [property (ascii "textures") (ascii "!!")]))
    (demoContext ⟨clientUrl, ascii "slim", 2, ascii "Gone"⟩)
  have hrefused := ((C13_failure_responses
    (demoEnv (Except.error (GoError.other (ascii "connection refused"))))
    (demoContext ⟨clientUrl, ascii "slim", 1, []⟩)).2.2.2.2.2.2.2.2.1
    ⟨clientUrl, ascii "slim", 1, []⟩ demoProfileId (demo_gates _ _)).2.1 uuid.Nil
    (GoError.other (ascii "connection refused")) (by decide) rfl rfl
  ⟨(C13_failure_responses (demoEnv (profileWith []))
      (contextWith [] (Except.error (ascii "EOF")))).2.2.2.2.1 (ascii "EOF") rfl,
    (hgone.2.2.2.2.2.2.2.2.1 ⟨clientUrl, ascii "slim", 2, ascii "Gone"⟩ demoProfileId
      (demo_gates _ _)).1 rfl
      (AccountFailure.lookup (GoError.other (ascii "404 Not Found")) rfl),
    ⟨hrefused.1, hrefused.2.2 (fun _ hwraps => nomatch hwraps)⟩,
    hgone.2.2.1 404 rfl,
    (C13_failure_responses (demoEnv (profileWith [property (ascii "textures") (ascii "!!")]))
      (demoContext ⟨clientUrl, ascii "slim", 1, []⟩)).2.2.2.1
      (StoreCall.SetTexture (ascii "token123") demoProfileId clientUrl (ascii "skin")
        (ascii "slim"))
      (by
        have hstore :
            (SetTexture (demoEnv (profileWith [property (ascii "textures") (ascii "!!")]))
              (demoContext ⟨clientUrl, ascii "slim", 1, []⟩)).store =
            [StoreCall.SetTexture (ascii "token123") demoProfileId clientUrl (ascii "skin")
              (ascii "slim")] := rfl
        rw [hstore]
        exact List.mem_singleton.mpr rfl)⟩


/-- C14: for an `UploadTexture` request past the token, profile-id and texture-type
gates that carries a file, the handler answers `400` without calling the store
exactly when the size of the file is greater than `2 ^ 20 = 1048576`; the answer is
then the file-too-large error, and a file of exactly `1048576` bytes passes. -/
theorem C14_upload_size_limit (env : Env) (c : Context) (profileId : UUID)
    (file : FileHeader)
    (hg : PathGates env c profileId)
    (htype : c.Param (ascii "textureType") = ascii "skin" ∨
      c.Param (ascii "textureType") = ascii "cape")
    (hfile : c.FormFile (ascii "file") = Except.ok file) :
    (((∃ body, (UploadTexture env c).response = Response.abortWithStatusJSON 400 body) ∧
        (UploadTexture env c).store = []) ↔ file.Size > 1048576) ∧
    (file.Size > 1048576 → UploadTexture env c = fileTooLarge) ∧
    (file.Size = 1048576 →
      ¬ ∃ body, (UploadTexture env c).response = Response.abortWithStatusJSON 400 body) := by
  have hpow : (2 : Int) ^ 20 = 1048576 := by norm_num
  rw [UploadTexture_of_gates hg htype]
  have hlarge : file.Size > 1048576 →
      uploadFile env c (accessTokenOf c) profileId (c.Param (ascii "textureType")) =
        fileTooLarge := fun hsize =>
    uploadFile_too_large env c _ _ _ file hfile (hpow ▸ hsize)
  have hsmall : ¬ file.Size > 1048576 →
      ¬ ∃ body, (uploadFile env c (accessTokenOf c) profileId
        (c.Param (ascii "textureType"))).response = Response.abortWithStatusJSON 400 body := by
    intro hsize
    have hsize2 : ¬ file.Size > 2 ^ 20 := hpow ▸ hsize
    rintro ⟨body, hbody⟩
    cases hopen : file.Open with
    | error err =>
      rw [uploadFile_open_error env c _ _ _ file err hfile hsize2 hopen] at hbody
      have hcode := (Response.abortWithStatusJSON.inj hbody).1
      exact absurd hcode (by decide)
    | ok fileReader =>
      rcases (uploadFile_store env c (accessTokenOf c) profileId
        (c.Param (ascii "textureType")) file fileReader hfile hsize2 hopen).2 with h | ⟨err, h⟩
      · rw [h] at hbody
        cases hbody
      · rw [h] at hbody
        cases hbody
  refine ⟨⟨?_, ?_⟩, hlarge, ?_⟩
  · rintro ⟨hbody, _⟩
    by_contra hsize
    exact hsmall hsize hbody
  · intro hsize
    rw [hlarge hsize]
    exact ⟨⟨_, rfl⟩, rfl⟩
  · intro hsize
    exact hsmall (by omega)

/-- C14 at two uploads of a skin: a file of `1048577` bytes is answered `400`, file
too large, without a call on the store; a file of `1048576` bytes is not answered
`400`. -/
theorem C14_witness :
    UploadTexture (demoEnv (profileWith []))
        (uploadContext (ascii "skin") (ascii "default") (fileOfSize 1048577)) =
      ⟨[], [], Response.abortWithStatusJSON 400
        (ErrorBody.NewIllegalArgumentError (ascii "File too large(more than 1MiB)"))⟩ ∧
    ¬ ∃ body,
      (UploadTexture (demoEnv (profileWith []))
        (uploadContext (ascii "skin") (ascii "default") (fileOfSize 1048576))).response =
        Response.abortWithStatusJSON 400 body :=
  ⟨(C14_upload_size_limit (demoEnv (profileWith []))
      (uploadContext (ascii "skin") (ascii "default") (fileOfSize 1048577)) demoProfileId
      ⟨1048577, Except.ok (ascii "PNG")⟩
      ⟨(by decide : 8 ≤ (ascii "Bearer token123").length), rfl⟩ (Or.inl rfl) rfl).2.1
      (by decide),
    (C14_upload_size_limit (demoEnv (profileWith []))
      (uploadContext (ascii "skin") (ascii "default") (fileOfSize 1048576)) demoProfileId
      ⟨1048576, Except.ok (ascii "PNG")⟩
      ⟨(by decide : 8 ≤ (ascii "Bearer token123").length), rfl⟩ (Or.inl rfl) rfl).2.2 rfl⟩

/-- C15: past the earlier gates (token and profile id, and for `SetTexture` the
body), each of the three handlers rejects a texture type other than `skin` and
`cape` with `400`, the illegal-argument error `Invalid texture type.` and no call on
the store; with `skin` or `cape` each handler goes on: `SetTexture` to the
resolution, `UploadTexture` to the form file, `DeleteTexture` to the store. -/
theorem C15_texture_type_gate (env : Env) (c : Context) (profileId : UUID)
    (hg : PathGates env c profileId) :
    ((c.Param (ascii "textureType") ≠ ascii "skin" ∧
        c.Param (ascii "textureType") ≠ ascii "cape") →
      UploadTexture env c = invalidTextureType ∧
      DeleteTexture env c = invalidTextureType ∧
      ∀ request, c.ShouldBindJSON ⟨[], env.STEVE, 0, []⟩ = Except.ok request →
        SetTexture env c = invalidTextureType) ∧
    ((c.Param (ascii "textureType") = ascii "skin" ∨
        c.Param (ascii "textureType") = ascii "cape") →
      UploadTexture env c =
        uploadFile env c (accessTokenOf c) profileId (c.Param (ascii "textureType")) ∧
      DeleteTexture env c =
        storeDeleteTexture env (accessTokenOf c) profileId (c.Param (ascii "textureType")) ∧
      (DeleteTexture env c).store =
        [StoreCall.DeleteTexture (accessTokenOf c) profileId (c.Param (ascii "textureType"))] ∧
      ∀ request, c.ShouldBindJSON ⟨[], env.STEVE, 0, []⟩ = Except.ok request →
        SetTexture env c =
          resolveAndStore env (accessTokenOf c) profileId (c.Param (ascii "textureType"))
            request) := by
  have htok : ¬ (c.GetHeader (ascii "Authorization")).length < 8 := Nat.not_lt.mpr hg.token
  constructor
  · intro htype
    refine ⟨(path_handlers_invalid_type hg htype).1, (path_handlers_invalid_type hg htype).2, ?_⟩
    intro request hbind
    unfold SetTexture invalidTextureType
    simp only [hbind, htok, if_false, hg.uuid]
    rw [if_pos htype]
  · intro htype
    refine ⟨UploadTexture_of_gates hg htype, DeleteTexture_of_gates hg htype, ?_, ?_⟩
    · rw [DeleteTexture_of_gates hg htype]
      unfold storeDeleteTexture
      cases env.textureService.DeleteTexture (accessTokenOf c) profileId
        (c.Param (ascii "textureType")) <;> rfl
    · intro request hbind
      exact SetTexture_of_gates ⟨hbind, hg.token, hg.uuid, htype⟩

/-- C15 at the texture types `Skin` (upper-case initial) and `cape`: `Skin` is
rejected by the three handlers with `400` and `Invalid texture type.`; with `cape`
`DeleteTexture` calls the store. -/
theorem C15_witness :
    (UploadTexture (demoEnv (profileWith []))
        (uploadContext (ascii "Skin") (ascii "default") (fileOfSize 3)) =
        ⟨[], [], Response.abortWithStatusJSON 400
          (ErrorBody.NewIllegalArgumentError (ascii "Invalid texture type."))⟩ ∧
      DeleteTexture (demoEnv (profileWith []))
        (uploadContext (ascii "Skin") (ascii "default") (fileOfSize 3)) =
        ⟨[], [], Response.abortWithStatusJSON 400
          (ErrorBody.NewIllegalArgumentError (ascii "Invalid texture type."))⟩ ∧
      SetTexture (demoEnv (profileWith []))
        (uploadContext (ascii "Skin") (ascii "default") (fileOfSize 3)) =
        ⟨[], [], Response.abortWithStatusJSON 400
          (ErrorBody.NewIllegalArgumentError (ascii "Invalid texture type."))⟩) ∧
    (DeleteTexture (demoEnv (profileWith []))
      (uploadContext (ascii "cape") (ascii "default") (fileOfSize 3))).store =
      [StoreCall.DeleteTexture (ascii "token123") demoProfileId (ascii "cape")] :=
  have hbad := (C15_texture_type_gate (demoEnv (profileWith []))
    (uploadContext (ascii "Skin") (ascii "default") (fileOfSize 3)) demoProfileId
    ⟨(by decide : 8 ≤ (ascii "Bearer token123").length), rfl⟩).1 (by decide)
  have hgood := (C15_texture_type_gate (demoEnv (profileWith []))
    (uploadContext (ascii "cape") (ascii "default") (fileOfSize 3)) demoProfileId
    ⟨(by decide : 8 ≤ (ascii "Bearer token123").length), rfl⟩).2 (Or.inr rfl)
  ⟨⟨hbad.1, hbad.2.1, hbad.2.2 _ rfl⟩, hgood.2.2.1⟩


/-- C16: the result of `SetTexture` depends on the level through three classes.  A
negative level gives the result of level 0, with no lookup.  A level of three or
more gives the result of level 1, the other fields and the collaborators being the
same, with the profile of the path id as the only lookup.  At every level other than
two the username has no effect.  At level two the first lookup is the account lookup
of the username. -/
theorem C16_level_classes (env : Env) (c : Context) :
    (∀ level, level < 0 →
      SetTexture env (withLevel c level) = SetTexture env (withLevel c 0)) ∧
    (∀ level, 3 ≤ level →
      SetTexture env (withLevel c level) = SetTexture env (withLevel c 1)) ∧
    (∀ level username, level ≠ 2 →
      SetTexture env (withUsername (withLevel c level) username) =
        SetTexture env (withLevel c level)) ∧
    (∀ level request profileId, Gates env c request profileId →
      (level ≤ 0 → (SetTexture env (withLevel c level)).lookups = []) ∧
      (1 ≤ level → level ≠ 2 →
        (SetTexture env (withLevel c level)).lookups = [profileUrl env profileId]) ∧
      (level = 2 →
        ∃ rest, (SetTexture env (withLevel c level)).lookups =
          accountUrl request.Username :: rest)) := by
  refine ⟨?_, ?_, ?_, ?_⟩
  · intro level hlevel
    exact SetTexture_withLevel_congr env c level 0 (fun request _ _ _ =>
      resolveAndStore_nonpositive env _ _ _ request level (by omega))
  · intro level hlevel
    apply SetTexture_withLevel_congr env c level 1
    intro request accessToken profileId textureType
    rw [resolveAndStore_profile_only env _ _ _ { request with ForceMojangSkin := level }
        (by show 1 ≤ level; omega) (by show level ≠ 2; omega),
      resolveAndStore_profile_only env _ _ _ { request with ForceMojangSkin := 1 }
        (by show (1 : Int) ≤ 1; decide) (by show (1 : Int) ≠ 2; decide)]
  · intro level username h2
    exact SetTexture_withUsername env c level username h2
  · intro level request profileId hg
    rw [SetTexture_of_gates (Gates_withLevel level hg)]
    refine ⟨?_, ?_, ?_⟩
    · intro hlevel
      rw [resolveAndStore_store_only env _ _ _ { request with ForceMojangSkin := level } hlevel]
      exact storeSetTexture_lookups _ _ _ _ _ _ _
    · intro hlevel h2
      rw [resolveAndStore_profile_only env _ _ _ { request with ForceMojangSkin := level }
        hlevel h2, profileStage_lookups]
      simp only [targetId, if_true, List.nil_append]
    · intro hlevel
      subst hlevel
      unfold resolveAndStore
      cases accountStage env { request with ForceMojangSkin := 2 } with
      | none => exact ⟨[], rfl⟩
      | some newUUID =>
        simp only [gt_iff_lt, Nat.ofNat_pos, if_true]
        rw [profileStage_lookups]
        exact ⟨_, rfl⟩

/-- C16 at the levels `-5` and `7` of a request whose profile carries
`https://example/s.png`: level `-5` stores the url of the client without a lookup, as
level 0 does; level `7` stores the skin url after the profile lookup for the path id,
as level 1 does, whatever the username. -/
theorem C16_witness :
    (SetTexture (demoEnv (profileWith [property (ascii "textures") skinBase64]))
        (withLevel (demoContext ⟨clientUrl, ascii "slim", 0, ascii "Notch"⟩) (-5)) =
      SetTexture (demoEnv (profileWith [property (ascii "textures") skinBase64]))
        (withLevel (demoContext ⟨clientUrl, ascii "slim", 0, ascii "Notch"⟩) 0)) ∧
    (SetTexture (demoEnv (profileWith [property (ascii "textures") skinBase64]))
        (withLevel (demoContext ⟨clientUrl, ascii "slim", 0, ascii "Notch"⟩) 7) =
      SetTexture (demoEnv (profileWith [property (ascii "textures") skinBase64]))
        (withLevel (demoContext ⟨clientUrl, ascii "slim", 0, ascii "Notch"⟩) 1)) ∧
    (SetTexture (demoEnv (profileWith [property (ascii "textures") skinBase64]))
        (withUsername (withLevel (demoContext ⟨clientUrl, ascii "slim", 0, ascii "Notch"⟩) 7)
          (ascii "Zero")) =
      SetTexture (demoEnv (profileWith [property (ascii "textures") skinBase64]))
        (withLevel (demoContext ⟨clientUrl, ascii "slim", 0, ascii "Notch"⟩) 7)) ∧
    (SetTexture (demoEnv (profileWith [property (ascii "textures") skinBase64]))
        (withLevel (demoContext ⟨clientUrl, ascii "slim", 0, ascii "Notch"⟩) (-5))).lookups =
      [] ∧
    (SetTexture (demoEnv (profileWith [property (ascii "textures") skinBase64]))
        (withLevel (demoContext ⟨clientUrl, ascii "slim", 0, ascii "Notch"⟩) 7)).lookups =
      [ascii "https://sessionserver.mojang.com/session/minecraft/profile/11111111222233334444555555555555"] ∧
    (∃ rest,
      (SetTexture (demoEnv (profileWith [property (ascii "textures") skinBase64]))
        (withLevel (demoContext ⟨clientUrl, ascii "slim", 0, ascii "Notch"⟩) 2)).lookups =
      ascii "https://api.mojang.com/users/profiles/minecraft/Notch" :: rest) :=
  have h := C16_level_classes (demoEnv (profileWith [property (ascii "textures") skinBase64]))
    (demoContext ⟨clientUrl, ascii "slim", 0, ascii "Notch"⟩)
  ⟨h.1 (-5) (by decide), h.2.1 7 (by decide), h.2.2.1 7 (ascii "Zero") (by decide),
    (h.2.2.2 (-5) _ demoProfileId (demo_gates _ _)).1 (by decide),
    (h.2.2.2 7 _ demoProfileId (demo_gates _ _)).2.1 (by decide) (by decide),
    (h.2.2.2 2 ⟨clientUrl, ascii "slim", 0, ascii "Notch"⟩ demoProfileId
      (demo_gates _ _)).2.2 rfl⟩

/-- C17: when `UploadTexture` reaches the store (gates passed, a file within the size
limit that opens), the model of the call is `ALEX` if the form field `model` is
exactly `ALEX` and `STEVE` for every other value of the field, the empty one of an
absent field included; whatever the field holds, the store is called, so no value is
rejected; with `STEVE` and `ALEX` distinct, the model is `ALEX` only if the field is
`ALEX`. -/
theorem C17_upload_model (env : Env) (c : Context) (profileId : UUID) (file : FileHeader)
    (fileReader : GoString)
    (hg : PathGates env c profileId)
    (htype : c.Param (ascii "textureType") = ascii "skin" ∨
      c.Param (ascii "textureType") = ascii "cape")
    (hfile : c.FormFile (ascii "file") = Except.ok file)
    (hsize : file.Size ≤ 1048576)
    (hopen : file.Open = Except.ok fileReader) :
    (∃ modelType,
      (UploadTexture env c).store =
        [StoreCall.UploadTexture (accessTokenOf c) profileId fileReader
          (c.Param (ascii "textureType")) modelType] ∧
      (c.PostForm (ascii "model") = ascii "ALEX" → modelType = env.ALEX) ∧
      (c.PostForm (ascii "model") ≠ ascii "ALEX" → modelType = env.STEVE) ∧
      (env.STEVE ≠ env.ALEX →
        (modelType = env.ALEX ↔ c.PostForm (ascii "model") = ascii "ALEX"))) := by
  have hsize2 : ¬ file.Size > 2 ^ 20 := by
    have hpow : (2 : Int) ^ 20 = 1048576 := by norm_num
    rw [hpow]
    omega
  refine ⟨if c.PostForm (ascii "model") = ascii "ALEX" then env.ALEX else env.STEVE, ?_, ?_, ?_, ?_⟩
  · rw [UploadTexture_of_gates hg htype]
    exact (uploadFile_store env c _ _ _ file fileReader hfile hsize2 hopen).1
  · intro hfield
    rw [if_pos hfield]
  · intro hfield
    rw [if_neg hfield]
  · intro hdistinct
    by_cases hfield : c.PostForm (ascii "model") = ascii "ALEX"
    · rw [if_pos hfield]
      exact ⟨fun _ => hfield, fun _ => rfl⟩
    · rw [if_neg hfield]
      exact ⟨fun h => absurd h hdistinct, fun h => absurd h hfield⟩

/-- C17 at an upload whose form field `model` is `slim`: the store is called, with
the model `default`, which is `STEVE`. -/
theorem C17_witness :
    ∃ modelType,
      (UploadTexture (demoEnv (profileWith []))
        (uploadContext (ascii "skin") (ascii "slim") (fileOfSize 3))).store =
        [StoreCall.UploadTexture (ascii "token123") demoProfileId (ascii "PNG") (ascii "skin")
          modelType] ∧
      (ascii "slim" = ascii "ALEX" → modelType = ascii "slim") ∧
      (ascii "slim" ≠ ascii "ALEX" → modelType = ascii "default") ∧
      (ascii "default" ≠ ascii "slim" →
        (modelType = ascii "slim" ↔ ascii "slim" = ascii "ALEX")) :=
  C17_upload_model (demoEnv (profileWith []))
    (uploadContext (ascii "skin") (ascii "slim") (fileOfSize 3)) demoProfileId
    ⟨3, Except.ok (ascii "PNG")⟩ (ascii "PNG")
    ⟨(by decide : 8 ≤ (ascii "Bearer token123").length), rfl⟩ (Or.inl rfl) rfl (by decide) rfl


end Router
